import Mathlib

/-!
Verification development for the nextier-signal-engine-core repository.

The Python sources are shallowly embedded into Lean:
* Python floats become exact rationals (`ℚ`); the scoring arithmetic of the
  repository is plain rational arithmetic, so this is exact on the inputs
  used in the theorems below.
* Python `dict.get` with a default becomes `Option.getD`; a dictionary field
  that may be absent becomes an `Option` field.
* Exceptions (the blanket `except Exception` of `calculate_risk_score`,
  `ZeroDivisionError` in `detect_surge`, `TypeError` from formatting `None`
  in an f-string, `UnboundLocalError` for `impact_zone`) become `none`
  results threaded through the computation.
* The Haversine distance (`RiskService._haversine_distance`) is
  transcendental; the embedding is parametric in the distance function
  `DistFn`, so every theorem below holds for the actual Haversine distance.
* `DeduplicationService.generate_fingerprint` applies SHA-256; the embedding
  is parametric in the hash function, since no claim depends on particular
  hash values, only on grouping by equal fingerprints.
-/

namespace Nextier

/-! ## Python-style numeric helpers -/

/-- Python `round(q)`: round half to even (banker's rounding). -/
def pyRoundHE (q : ℚ) : ℤ :=
  let f : ℤ := ⌊q⌋
  let r : ℚ := q - f
  if r < 1/2 then f
  else if r > 1/2 then f + 1
  else if f % 2 = 0 then f else f + 1

/-- Python `round(q, 1)`: round to one decimal place, half to even. -/
def round1 (q : ℚ) : ℚ := (pyRoundHE (q * 10) : ℚ) / 10

/-- `max(0, min(100, s))`, the clamping step of the scoring functions. -/
def clampScore (q : ℚ) : ℚ := max 0 (min 100 q)

theorem pyRoundHE_le (q : ℚ) : (⌊q⌋ : ℤ) ≤ pyRoundHE q := by
  unfold pyRoundHE
  simp only []
  split
  · exact le_refl _
  · split
    · omega
    · split <;> omega

theorem pyRoundHE_ge (q : ℚ) : pyRoundHE q ≤ ⌊q⌋ + 1 := by
  unfold pyRoundHE
  simp only []
  split
  · omega
  · split
    · omega
    · split <;> omega

theorem round1_ge (q : ℚ) (a : ℤ) (h : (a : ℚ) ≤ q) : (a : ℚ) ≤ round1 q := by
  unfold round1
  have h10 : ((10 * a : ℤ) : ℚ) ≤ q * 10 := by push_cast; linarith
  have hf : (10 * a : ℤ) ≤ ⌊q * 10⌋ := Int.le_floor.mpr h10
  have := pyRoundHE_le (q * 10)
  have hcast : ((10 * a : ℤ) : ℚ) ≤ (pyRoundHE (q * 10) : ℚ) := by
    exact_mod_cast le_trans hf this
  have : (10 * (a : ℚ)) ≤ (pyRoundHE (q * 10) : ℚ) := by push_cast at hcast ⊢; linarith
  linarith

theorem pyRoundHE_le_ceil (q : ℚ) : pyRoundHE q ≤ ⌈q⌉ := by
  unfold pyRoundHE
  simp only []
  have hfc : (⌊q⌋ : ℚ) ≤ q := Int.floor_le q
  have hcf : ⌊q⌋ ≤ ⌈q⌉ := Int.floor_le_ceil q
  split
  · exact hcf
  · have hpos : (0 : ℚ) < q - ⌊q⌋ := by
      rename_i hlt
      by_contra hc
      push_neg at hc
      have : q - (⌊q⌋ : ℚ) = 0 := le_antisymm hc (by linarith)
      rw [this] at hlt
      norm_num at hlt
    have hne : (⌊q⌋ : ℚ) ≠ q := by intro he; rw [he] at hpos; linarith
    have : ⌈q⌉ = ⌊q⌋ + 1 := by
      rcases Int.lt_or_le ⌊q⌋ ⌈q⌉ with hl | hl
      · have h1 : ⌈q⌉ ≤ ⌊q⌋ + 1 := Int.ceil_le_floor_add_one q
        omega
      · exfalso
        have : (⌈q⌉ : ℚ) ≥ q := Int.le_ceil q
        have : (⌈q⌉ : ℚ) ≤ (⌊q⌋ : ℚ) := by exact_mod_cast hl
        have : q ≤ (⌊q⌋ : ℚ) := by linarith
        exact hne (le_antisymm hfc this)
    split
    · omega
    · split <;> omega

theorem round1_le (q : ℚ) (b : ℤ) (h : q ≤ (b : ℚ)) : round1 q ≤ (b : ℚ) := by
  unfold round1
  have h10 : q * 10 ≤ ((10 * b : ℤ) : ℚ) := by push_cast; linarith
  have hc : ⌈q * 10⌉ ≤ 10 * b := Int.ceil_le.mpr h10
  have := pyRoundHE_le_ceil (q * 10)
  have hcast : (pyRoundHE (q * 10) : ℚ) ≤ ((10 * b : ℤ) : ℚ) := by
    exact_mod_cast le_trans this hc
  push_cast at hcast
  linarith

theorem clampScore_nonneg (q : ℚ) : 0 ≤ clampScore q := le_max_left 0 _

theorem clampScore_le_100 (q : ℚ) : clampScore q ≤ 100 := by
  unfold clampScore
  have h1 : min 100 q ≤ (100 : ℚ) := min_le_left _ _
  exact max_le (by norm_num) h1

theorem clampScore_ge (q a : ℚ) (ha : a ≤ q) (ha100 : a ≤ 100) : a ≤ clampScore q := by
  unfold clampScore
  exact le_trans (le_min ha100 ha) (le_max_right 0 _)

/-! ## Python-style string helpers -/

/-- Python `str.lower()` (character-wise; our inputs are ASCII). -/
def pyLower (s : String) : String := ⟨s.data.map Char.toLower⟩

/-- Python `str.strip()`. -/
def pyStrip (s : String) : String :=
  ⟨((s.data.dropWhile Char.isWhitespace).reverse.dropWhile Char.isWhitespace).reverse⟩

/-- Python `sep.join(parts)`. -/
def pyJoin (sep : String) : List String → String
  | [] => ""
  | [a] => a
  | a :: rest => a ++ sep ++ pyJoin sep rest

/-- `sub` occurs as a contiguous substring of `s` (Python `sub in s`). -/
def strContains (s sub : String) : Prop := sub.data <:+: s.data

instance (s sub : String) : Decidable (strContains s sub) := by
  unfold strContains
  infer_instance

/-- Python truthiness of an optional float: `None` and `0.0` are falsy. -/
def truthyQ : Option ℚ → Bool
  | none => false
  | some q => decide (q ≠ 0)

/-- Render `None` / a string the way a Python f-string renders it. -/
def pyShowOptStr : Option String → String
  | none => "None"
  | some s => s

/-! ## Decimal formatting (Python f-string `:.Nf` and `str(float)`)

The repository interpolates floats into its human-readable trigger
clauses.  `fmtFixed d q` renders `q` rounded half-to-even to `d` decimal
places with exactly `d` digits after the point, matching Python's
`format(x, '.df')` on the exact rational value of `x`.  `fmtFloat`
matches Python's `str(x)` for floats whose shortest representation is the
exact decimal the value actually equals (true for every literal used in
this development). -/

def padZeros (d : ℕ) (s : String) : String :=
  ⟨List.replicate (d - s.data.length) '0' ++ s.data⟩

def fmtFixedNat (d : ℕ) (n : ℕ) : String :=
  if d = 0 then toString n
  else toString (n / 10 ^ d) ++ "." ++ padZeros d (toString (n % 10 ^ d))

def fmtFixed (d : ℕ) (q : ℚ) : String :=
  let m : ℤ := pyRoundHE (q * (10 ^ d : ℕ))
  if m < 0 then "-" ++ fmtFixedNat d m.natAbs else fmtFixedNat d m.natAbs

/-- Smallest `k ≤ fuel` (counting up from `k₀`) with `den ∣ 10 ^ k`. -/
def findDecExp (den : ℕ) : ℕ → ℕ → Option ℕ
  | _, 0 => none
  | k, fuel + 1 => if den ∣ 10 ^ k then some k else findDecExp den (k + 1) fuel

def fmtFloat (q : ℚ) : String :=
  let sign := if q < 0 then "-" else ""
  let n := q.num.natAbs
  match findDecExp q.den 0 80 with
  | some 0 => sign ++ toString n ++ ".0"
  | some k => sign ++ fmtFixedNat k (n * (10 ^ k / q.den))
  | none => sign ++ toString n ++ "/" ++ toString q.den

/-! ## Configuration (src/predictor/utils/config.py, default environment) -/

namespace Config

def BASE_RISK_SCORE : ℚ := 30
def INFLATION_THRESHOLD : ℚ := 20
def FUEL_PRICE_THRESHOLD : ℚ := 650

/-- `Config.URBAN_LGAS` (src/predictor/utils/config.py lines 32-88). -/
def URBAN_LGAS : List String :=
  ["ikeja", "lagos island", "lagos mainland", "surulere", "eti-osa", "apapa",
   "kosofe", "oshodi-isolo", "alimosho", "ajeromi-ifelodun", "mushin",
   "abuja municipal", "gwagwalada", "kuje", "abaji", "bwari", "kwali",
   "kano municipal", "nassarawa", "fagge", "dala", "gwale", "tarauni",
   "port harcourt", "obio-akpor", "eleme", "okrika",
   "kaduna north", "kaduna south", "chikun", "igabi",
   "ibadan north", "ibadan south-west", "ibadan north-east", "ibadan south-east",
   "ibadan north-west",
   "enugu north", "enugu south", "enugu east",
   "onitsha north", "onitsha south", "awka north", "awka south",
   "warri south", "warri north", "warri south-west", "oshimili south",
   "oredo", "egor", "ikpoba-okha",
   "aba north", "aba south", "umuahia north", "umuahia south",
   "jos north", "jos south", "jos east",
   "makurdi",
   "calabar municipal", "calabar south",
   "uyo", "bauchi", "maiduguri", "gombe",
   "owerri municipal", "owerri north", "owerri west",
   "ilorin west", "ilorin east", "ilorin south",
   "minna", "akure south", "akure north", "osogbo",
   "abeokuta south", "abeokuta north",
   "sokoto north", "sokoto south",
   "damaturu", "gusau"]

/-- `Config.is_urban_lga`. -/
def is_urban_lga (lga : String) : Bool :=
  decide (pyStrip (pyLower lga) ∈ URBAN_LGAS)

end Config

/-! ## Data model

Rows of the reference datasets, as read from their JSON/CSV files.
A field read in the source with `.get(key, default)` or `.get(key)` is an
`Option`; a field accessed with `row[key]` is mandatory. -/

/-- A `ParsedEvent`-style event dict as consumed by RiskService
(src/predictor/services/risk_service.py accesses every field through
`event.get(...)`, so all fields are optional). -/
structure Event where
  event_type : Option String := none
  state : Option String := none
  lga : Option String := none
  severity : Option String := none
  source_title : Option String := none
  source_url : Option String := none
  content : Option String := none
  latitude : Option ℚ := none
  longitude : Option ℚ := none
deriving Repr, DecidableEq

/-- One row of `nigeria_econ.csv` (columns State, LGA, Fuel_Price, Inflation). -/
structure EconRow where
  State : String
  LGA : String
  Fuel_Price : ℚ
  Inflation : ℚ
deriving Repr, DecidableEq

/-- One entry of `climate_data.json`. -/
structure ClimateRow where
  state : String
  lga : String
  flood_inundation_index : Option ℚ := none
  precipitation_anomaly : Option ℚ := none
  vegetation_health_index : Option ℚ := none
deriving Repr, DecidableEq

/-- One entry of `mining_activity.json`. -/
structure MiningSite where
  latitude : ℚ
  longitude : ℚ
  site_name : Option String := none
  informal_taxation_rate : Option ℚ := none
deriving Repr, DecidableEq

/-- One entry of `border_signals.json`. -/
structure BorderRow where
  state : String
  lga : String
  border_activity : Option String := none
  lakurawa_presence_confirmed : Option Bool := none
  border_permeability_score : Option ℚ := none
  group_affiliation : Option String := none
  sophisticated_ied_usage : Option Bool := none
deriving Repr, DecidableEq

/-- One row of `nigeria_econ_indicators.csv` (strategic state-level data). -/
structure StrategicRow where
  state : String
  poverty_rate : ℚ
  inflation_rate : ℚ
  unemployment : ℚ
  mining_density : ℚ
  climate_vulnerability : ℚ
  migration_pressure : ℚ
deriving Repr, DecidableEq

/-- Properties of one GeoJSON feature of `climate_indicators.geojson`.
`rings = none` models a geometry with no `coordinates` key (the source
substitutes `[[]]`); `rings = some []` models an empty coordinates list
(IndexError in the source). -/
structure ZoneFeature where
  geomType : String
  rings : Option (List (List (ℚ × ℚ))) := none
  region : Option String := none
  indicator : Option String := none
  recession_index : Option ℚ := none
  impact_zone : Option String := none
  conflict_correlation : Option String := none
deriving Repr, DecidableEq

/-- The reference datasets loaded by `RiskService.__init__`. -/
structure Datasets where
  climate : List ClimateRow := []
  zones : List ZoneFeature := []
  mining : List MiningSite := []
  border : List BorderRow := []
  strategic : List StrategicRow := []
deriving Repr, DecidableEq

/-- The distance function used by `find_nearest_mining_site`.  The source's
`_haversine_distance` is transcendental; every theorem below is proved for
an arbitrary distance function, hence in particular for Haversine. -/
def DistFn : Type := ℚ → ℚ → ℚ → ℚ → ℚ

/-- `RiskService.previous_risk_scores`: location key `"state:lga"` to score. -/
abbrev SurgeMap : Type := List (String × ℚ)

/-- Python dict update: replace the binding if the key exists, else append. -/
def mapSet : SurgeMap → String → ℚ → SurgeMap
  | [], k, v => [(k, v)]
  | (k', v') :: rest, k, v =>
      if k' = k then (k, v) :: rest else (k', v') :: mapSet rest k v

/-! ## RiskService lookup helpers (src/predictor/services/risk_service.py) -/

/-- `self.event_type_scores.get(event_type, 15)` (lines 23-35, 372). -/
def eventTypeScore (t : String) : ℚ :=
  if t = "clash" then 40
  else if t = "conflict" then 35
  else if t = "violence" then 30
  else if t = "protest" then 25
  else if t = "political" then 20
  else if t = "security" then 25
  else if t = "crime" then 20
  else if t = "sports" then 5
  else if t = "economic" then 15
  else if t = "social" then 10
  else if t = "unknown" then 15
  else 15

/-- `self.severity_modifiers.get(severity, 5)` (lines 37-46, 375). -/
def severityModifier (s : String) : ℚ :=
  if s = "high" then 20
  else if s = "severe" then 25
  else if s = "critical" then 30
  else if s = "medium" then 10
  else if s = "moderate" then 8
  else if s = "low" then 5
  else if s = "minor" then 3
  else if s = "unknown" then 5
  else 5

/-- `RiskService.find_economic_data` (lines 286-314): case-insensitive exact
`(state, lga)` match, then state-level fallback, first row wins. -/
def find_economic_data (econ : List EconRow) (e : Event) : Option EconRow :=
  let state := pyStrip (e.state.getD "")
  let lga := pyStrip (e.lga.getD "")
  match econ.find? (fun r =>
      pyLower r.State = pyLower state ∧ pyLower r.LGA = pyLower lga) with
  | some r => some r
  | none => econ.find? (fun r => pyLower r.State = pyLower state)

/-- `RiskService.find_climate_data` (lines 197-203). -/
def find_climate_data (rows : List ClimateRow) (state lga : String) :
    Option ClimateRow :=
  rows.find? (fun c => pyLower c.state = pyLower state ∧ pyLower c.lga = pyLower lga)

/-- `RiskService.find_border_data` (lines 227-233). -/
def find_border_data (rows : List BorderRow) (state lga : String) :
    Option BorderRow :=
  rows.find? (fun b => pyLower b.state = pyLower state ∧ pyLower b.lga = pyLower lga)

/-- `RiskService.get_strategic_indicators` (lines 101-126): first row whose
state matches case-insensitively. -/
def get_strategic_indicators (rows : List StrategicRow) (state : String) :
    Option StrategicRow :=
  rows.find? (fun r => pyLower r.state = pyLower state)

/-- Inner loop of `RiskService.find_nearest_mining_site` (lines 213-223):
running minimum with strict `<`, so the first of equally distant sites wins. -/
def nearestMiningAux (dist : DistFn) (lat lon : ℚ) :
    List MiningSite → Option (MiningSite × ℚ) → Option (MiningSite × ℚ)
  | [], best => best
  | s :: rest, best =>
      let d := dist lat lon s.latitude s.longitude
      match best with
      | none => nearestMiningAux dist lat lon rest (some (s, d))
      | some (bs, bd) =>
          if d < bd then nearestMiningAux dist lat lon rest (some (s, d))
          else nearestMiningAux dist lat lon rest (some (bs, bd))

/-- `RiskService.find_nearest_mining_site` (lines 205-225).  Returns the
site together with its `distance_km`.  `latitude`/`longitude` use Python
truthiness (`if not event_lat or not event_lon`), so `0.0` counts as
missing. -/
def find_nearest_mining_site (dist : DistFn) (mining : List MiningSite)
    (e : Event) : Option (MiningSite × ℚ) :=
  if truthyQ e.latitude = true ∧ truthyQ e.longitude = true then
    nearestMiningAux dist (e.latitude.getD 0) (e.longitude.getD 0) mining none
  else none

/-- One step of `RiskService._point_in_polygon`'s ray casting (lines 143-151).
The short-circuiting `and` guards the division: when the first conjunct
holds, `yi ≠ yj`, so the rational division is the real one. -/
def pipStep (lat lon : ℚ) (pi pj : ℚ × ℚ) : Bool :=
  let xi := pi.1; let yi := pi.2
  let xj := pj.1; let yj := pj.2
  decide ((yi > lat) ≠ (yj > lat)) &&
    decide (lon < (xj - xi) * (lat - yi) / (yj - yi) + xi)

/-- `RiskService._point_in_polygon` (lines 138-152): for index `i`,
`j = (i - 1) % n` is the predecessor cyclically. -/
def point_in_polygon (lat lon : ℚ) (poly : List (ℚ × ℚ)) : Bool :=
  let n := poly.length
  (List.range n).foldl
    (fun inside i =>
      match poly[i]?, poly[(i + n - 1) % n]? with
      | some pi, some pj => if pipStep lat lon pi pj then !inside else inside
      | _, _ => inside)
    false

/-- The dict built by `RiskService.calculate_climate_risk` on a polygon hit
(lines 181-189). -/
structure ClimateRiskInfo where
  region : String
  indicator : String
  recession_index : ℚ
  impact_zone : String
  conflict_correlation : String
  is_high_impact : Bool
deriving Repr, DecidableEq

def mkClimateRiskInfo (f : ZoneFeature) : ClimateRiskInfo :=
  let iz := f.impact_zone.getD "Unknown"
  { region := f.region.getD "Unknown"
    indicator := f.indicator.getD "Unknown"
    recession_index := f.recession_index.getD 0
    impact_zone := iz
    conflict_correlation := f.conflict_correlation.getD ""
    is_high_impact := iz = "High" }

/-- Feature scan of `RiskService.calculate_climate_risk` (lines 167-191).
A feature whose `coordinates` list is present but empty raises IndexError,
which the function's own `except` turns into `None`, aborting the scan. -/
def scanClimateZones (lat lon : ℚ) : List ZoneFeature → Option ClimateRiskInfo
  | [] => none
  | f :: rest =>
      if f.geomType = "Polygon" then
        match f.rings with
        | none =>
            -- missing `coordinates` key: default `[[]]`, first ring is `[]`
            if point_in_polygon lat lon [] then some (mkClimateRiskInfo f)
            else scanClimateZones lat lon rest
        | some [] => none   -- `[][0]` raises IndexError: whole lookup aborts
        | some (ring :: _) =>
            if point_in_polygon lat lon ring then some (mkClimateRiskInfo f)
            else scanClimateZones lat lon rest
      else scanClimateZones lat lon rest

/-- `RiskService.calculate_climate_risk` (lines 154-195). -/
def calculate_climate_risk (zones : List ZoneFeature) (e : Event) :
    Option ClimateRiskInfo :=
  if truthyQ e.latitude = true ∧ truthyQ e.longitude = true then
    scanClimateZones (e.latitude.getD 0) (e.longitude.getD 0) zones
  else none

/-- `RiskService.is_farmer_herder_conflict` (lines 270-284). -/
def farmerHerderKeywords : List String :=
  ["farmer", "herder", "herdsmen", "fulani", "pastoralist",
   "cattle", "grazing", "farmland", "crop", "livestock",
   "communal clash", "land dispute"]

def is_farmer_herder_conflict (e : Event) : Bool :=
  let text := pyLower ((e.source_title.getD "") ++ " " ++ (e.content.getD "") ++
    " " ++ (e.event_type.getD ""))
  farmerHerderKeywords.any (fun kw => decide (strContains text kw))

/-- `RiskService.get_category_confidence` (lines 317-336). -/
def get_category_confidence (event_type : String) : String × ℤ :=
  let t := pyLower event_type
  if t = "clash" then ("Organized Banditry", 94)
  else if t = "attack" then ("Organized Banditry", 91)
  else if t = "kidnapping" then ("Kidnapping-for-Ransom", 87)
  else if t = "protest" then ("Sectarian Insurgency", 78)
  else if t = "vandalism" then ("Organized Banditry", 82)
  else if t = "robbery" then ("Organized Banditry", 89)
  else if t = "bombing" then ("Sectarian Insurgency", 93)
  else if t = "terrorism" then ("Sectarian Insurgency", 95)
  else if t = "farmer_herder" then ("Farmer-Herder Clashes", 92)
  else if t = "communal" then ("Farmer-Herder Clashes", 88)
  else if t = "ethnic" then ("Sectarian Insurgency", 85)
  else if t = "religious" then ("Sectarian Insurgency", 86)
  else ("Unknown", 0)

/-- The dict returned by `RiskService.detect_surge` (lines 263-268). -/
structure SurgeResult where
  surge_detected : Bool
  percentage_increase : ℚ
  previous_score : Option ℚ
  current_score : ℚ
deriving Repr, DecidableEq

/-- `RiskService.detect_surge` (lines 242-268).  Returns `none` when the
stored previous score is `0`: the percentage computation then raises
`ZeroDivisionError` *before* the map update, so the map is unchanged and
`calculate_risk_score`'s blanket `except` yields `None`. -/
def detect_surge (m : SurgeMap) (state lga : String) (current : ℚ) :
    Option (SurgeResult × SurgeMap) :=
  let key := state ++ ":" ++ lga
  match m.lookup key with
  | none =>
      some ({ surge_detected := false, percentage_increase := round1 0,
              previous_score := none, current_score := current },
            mapSet m key current)
  | some p =>
      if p = 0 then none
      else
        let pct := (current - p) / p * 100
        some ({ surge_detected := decide (pct > 20),
                percentage_increase := round1 pct,
                previous_score := some p, current_score := current },
              mapSet m key current)

/-! ## Trigger-reason clauses (the f-strings of `calculate_risk_score`) -/

def inflClause (inflation : ℚ) : String :=
  "High inflation (" ++ fmtFloat inflation ++ "%)"

def fuelClause (fuel : ℚ) : String :=
  "Elevated fuel prices (₦" ++ fmtFloat fuel ++ ")"

def floodClause (fi : ℚ) : String :=
  "Flooding-induced displacement (" ++ fmtFixed 1 fi ++
    "% farmland inundated) - increased resource competition"

def stressClause (cv : ℚ) : String :=
  "High Climate Vulnerability (" ++ fmtFixed 0 (cv * 100) ++
    "%) - environmental stress amplifies conflict risk"

def miningClause (dkm : ℚ) (name : Option String) (tax : ℚ) : String :=
  "High Funding Potential - Event within " ++ fmtFixed 1 dkm ++ "km of " ++
    pyShowOptStr name ++ " (informal taxation: " ++ fmtFixed 0 (tax * 100) ++ "%)"

def densityClause (md : ℚ) : String :=
  "High Escalation Potential due to Illicit Funding - Mining density " ++
    fmtFixed 0 (md * 100) ++ "% enables armed group financing"

def lakurawaClause (perm : ℚ) : String :=
  "Lakurawa Presence Detected - Sahelian jihadist expansion from Niger border " ++
    "(border permeability: " ++ fmtFixed 0 (perm * 100) ++ "%)"

def criticalBorderClause (ga : Option String) (perm : ℚ) : String :=
  "Critical border activity - " ++ pyShowOptStr ga ++ " (permeability: " ++
    fmtFixed 0 (perm * 100) ++ "%)"

def highBorderClause (ga : Option String) : String :=
  "High border activity - " ++ pyShowOptStr ga

def migrationClause (mp : ℚ) : String :=
  "Farmer-Herder Conflict amplified by Migration Pressure (" ++
    fmtFixed 0 (mp * 100) ++ "%) - pastoralist displacement intensifies land competition"

def zoneHighClause (region : String) (ri : ℚ) (corr : String) : String :=
  "Climate Stress Zone: " ++ region ++ " (Recession Index: " ++ fmtFixed 2 ri ++
    ") - " ++ corr

def zoneMedClause (region iz corr : String) : String :=
  "Climate Stress Zone: " ++ region ++ " (" ++ iz ++ " impact) - " ++ corr

def surgeClause (pct : ℚ) : String :=
  "⚠️ SURGE ALERT: Risk increased by " ++ fmtFixed 1 pct ++
    "% in last 15 minutes - rapid escalation detected"

/-! ## Scoring stages of `calculate_risk_score` (lines 365-548)

The running `(score, reasons)` pair mirrors `base_score` / `trigger_reasons`
in the source; each stage corresponds to one commented block. -/

structure StageAcc where
  score : ℚ
  reasons : List String
deriving Repr, DecidableEq

/-- Lines 378-381: inflation bonus. -/
def inflStage (inflation : ℚ) (acc : StageAcc) : StageAcc :=
  if inflation > Config.INFLATION_THRESHOLD then
    ⟨acc.score + min ((inflation - Config.INFLATION_THRESHOLD) * 2) 20,
     acc.reasons ++ [inflClause inflation]⟩
  else acc

/-- Lines 383-386: fuel-price bonus. -/
def fuelStage (fuel : ℚ) (acc : StageAcc) : StageAcc :=
  if fuel > Config.FUEL_PRICE_THRESHOLD then
    ⟨acc.score + min ((fuel - Config.FUEL_PRICE_THRESHOLD) * (1/10)) 10,
     acc.reasons ++ [fuelClause fuel]⟩
  else acc

/-- Lines 388-390: the clash-plus-inflation bump to 81 (appends no reason). -/
def bumpStage (eventType : String) (inflation : ℚ) (acc : StageAcc) : StageAcc :=
  if eventType = "clash" ∧ inflation > Config.INFLATION_THRESHOLD then
    ⟨max acc.score 81, acc.reasons⟩
  else acc

/-- Lines 369-390: base score, event-type and severity modifiers, economic
bonuses and the clash-plus-inflation bump. -/
def baseStages (eventType sev : String) (inflation fuel : ℚ) : StageAcc :=
  bumpStage eventType inflation (fuelStage fuel (inflStage inflation
    ⟨Config.BASE_RISK_SCORE + eventTypeScore eventType + severityModifier sev, []⟩))

/-- Lines 415-428: flood multiplier. -/
def floodStage (cd : Option ClimateRow) (eventType : String) (acc : StageAcc) :
    StageAcc :=
  match cd with
  | none => acc
  | some c =>
      let fi := c.flood_inundation_index.getD 0
      if fi > 20 ∧ eventType ∈ ["clash", "conflict", "violence"] then
        ⟨acc.score * (3/2), acc.reasons ++ [floodClause fi]⟩
      else acc

/-- Lines 430-438: strategic climate-stress bonus (`climate_vulnerability
and climate_vulnerability > 0.7`, Python truthiness on the left). -/
def stressStage (cv : Option ℚ) (acc : StageAcc) : StageAcc :=
  if truthyQ cv = true ∧ cv.getD 0 > 7/10 then
    ⟨acc.score + cv.getD 0 * 15, acc.reasons ++ [stressClause (cv.getD 0)]⟩
  else acc

/-- Lines 448-461: mining-proximity bonus.  When the branch fires and the
site record has no `informal_taxation_rate`, the reason f-string evaluates
`None * 100` and raises, so the whole calculation returns `None` (`none`
here).  The `Bool` is `high_funding_potential`. -/
def miningStage (site : Option (MiningSite × ℚ)) (acc : StageAcc) :
    Option (StageAcc × Bool) :=
  match site with
  | none => some (acc, false)
  | some (s, dkm) =>
      if truthyQ (some dkm) = true ∧ dkm < 10 then
        match s.informal_taxation_rate with
        | none => none
        | some tax =>
            some (⟨acc.score + 15, acc.reasons ++ [miningClause dkm s.site_name tax]⟩,
                  true)
      else some (acc, false)

/-- Lines 463-472: mining-density bonus; the `Bool` is
`high_escalation_potential`. -/
def densityStage (md : Option ℚ) (acc : StageAcc) : StageAcc × Bool :=
  if truthyQ md = true ∧ md.getD 0 > 3/5 then
    (⟨acc.score + md.getD 0 * 20, acc.reasons ++ [densityClause (md.getD 0)]⟩, true)
  else (acc, false)

/-- Lines 482-505: Sahelian / border stage.  The Lakurawa and Critical
branches format `border_permeability * 100`; a record without
`border_permeability_score` raises (`none`). -/
def borderStage (bd : Option BorderRow) (state : String) (acc : StageAcc) :
    Option StageAcc :=
  match bd with
  | none => some acc
  | some b =>
      if b.border_activity = some "High" ∧ pyLower state ∈ ["sokoto", "kebbi"] then
        match b.border_permeability_score with
        | none => none
        | some perm => some ⟨acc.score + 20, acc.reasons ++ [lakurawaClause perm]⟩
      else if b.border_activity = some "Critical" then
        match b.border_permeability_score with
        | none => none
        | some perm =>
            some ⟨acc.score + 15, acc.reasons ++ [criticalBorderClause b.group_affiliation perm]⟩
      else if b.border_activity = some "High" then
        some ⟨acc.score + 10, acc.reasons ++ [highBorderClause b.group_affiliation]⟩
      else some acc

/-- Lines 507-517: farmer-herder × migration multiplier. -/
def migrationStage (isFH : Bool) (mp : Option ℚ) (acc : StageAcc) : StageAcc :=
  if isFH = true ∧ truthyQ mp = true ∧ mp.getD 0 > 1/2 then
    ⟨acc.score * (1 + mp.getD 0), acc.reasons ++ [migrationClause (mp.getD 0)]⟩
  else acc

/-- Lines 526-548: climate-conflict correlation bonus.  The second
component is `climate_conflict_driver`. -/
def zoneStage (cr : Option ClimateRiskInfo) (acc : StageAcc) :
    StageAcc × Option String :=
  match cr with
  | none => (acc, none)
  | some info =>
      if info.is_high_impact = true then
        (⟨acc.score + 25,
          acc.reasons ++ [zoneHighClause info.region info.recession_index
            info.conflict_correlation]⟩, some "Environmental/Climate")
      else if info.impact_zone ∈ ["Medium-High", "Medium"] then
        (⟨acc.score + 15,
          acc.reasons ++ [zoneMedClause info.region info.impact_zone
            info.conflict_correlation]⟩, some "Environmental/Climate")
      else (acc, none)

/-- Lines 565-574: the risk-level bands (computed on the clamped score
*before* rounding). -/
def riskLevelOf (q : ℚ) : String :=
  if q ≥ 80 then "Critical"
  else if q ≥ 60 then "High"
  else if q ≥ 40 then "Medium"
  else if q ≥ 20 then "Low"
  else "Minimal"

/-! ## RiskSignal (src/predictor/models/risk.py lines 6-37)

This is the pydantic model actually imported by `risk_service.py`.
Constructor keyword arguments that are not fields of the model
(`surge_detected`, `climate_impact_zone`, ...) are silently ignored by
pydantic and so do not appear here.  `calculated_at` is a wall-clock
timestamp and is omitted from the embedding. -/

structure RiskSignal where
  event_type : String
  state : String
  lga : String
  severity : String
  fuel_price : ℚ
  inflation : ℚ
  risk_score : ℚ
  risk_level : String
  source_title : String
  source_url : String
  trigger_reason : String
  flood_inundation_index : Option ℚ := none
  precipitation_anomaly : Option ℚ := none
  vegetation_health_index : Option ℚ := none
  mining_proximity_km : Option ℚ := none
  mining_site_name : Option String := none
  high_funding_potential : Bool := false
  informal_taxation_rate : Option ℚ := none
  border_activity : Option String := none
  lakurawa_presence : Bool := false
  border_permeability_score : Option ℚ := none
  group_affiliation : Option String := none
  sophisticated_ied_usage : Bool := false
deriving Repr, DecidableEq

/-- An optional field bound `lo ≤ x ≤ hi` applies only when the value is
present. -/
def optBound (lo hi : ℚ) : Option ℚ → Prop
  | none => True
  | some q => lo ≤ q ∧ q ≤ hi

instance (lo hi : ℚ) (o : Option ℚ) : Decidable (optBound lo hi o) := by
  unfold optBound; cases o <;> infer_instance

def optLower (lo : ℚ) : Option ℚ → Prop
  | none => True
  | some q => lo ≤ q

instance (lo : ℚ) (o : Option ℚ) : Decidable (optLower lo o) := by
  unfold optLower; cases o <;> infer_instance

/-- The pydantic field constraints of `RiskSignal`:
`Field(min_length/max_length/ge/le/pattern)` in src/predictor/models/risk.py.
Constructing the model raises `ValidationError` when any fails. -/
def validSignal (s : RiskSignal) : Prop :=
  1 ≤ s.event_type.length ∧ s.event_type.length ≤ 50 ∧
  1 ≤ s.state.length ∧ s.state.length ≤ 50 ∧
  1 ≤ s.lga.length ∧ s.lga.length ≤ 50 ∧
  s.severity ∈ ["low", "medium", "high", "critical"] ∧
  0 ≤ s.fuel_price ∧ 0 ≤ s.inflation ∧
  0 ≤ s.risk_score ∧ s.risk_score ≤ 100 ∧
  s.risk_level ∈ ["Minimal", "Low", "Medium", "High", "Critical"] ∧
  3 ≤ s.source_title.length ∧ s.source_title.length ≤ 200 ∧
  10 ≤ s.source_url.length ∧
  optBound 0 100 s.flood_inundation_index ∧
  optBound 0 1 s.vegetation_health_index ∧
  optLower 0 s.mining_proximity_km ∧
  optBound 0 1 s.informal_taxation_rate ∧
  optBound 0 1 s.border_permeability_score

instance (s : RiskSignal) : Decidable (validSignal s) := by
  unfold validSignal; infer_instance

/-- `RiskSignal(...)` construction: `none` models the `ValidationError`
caught by the `except` block of `calculate_risk_score`. -/
def mkRiskSignal (s : RiskSignal) : Option RiskSignal :=
  if validSignal s then some s else none

/-- `RiskService.calculate_risk_score` (lines 338-632), returning the
produced signal (or `none` for any of: missing economic data, an exception
raised inside the body, or pydantic validation failure) together with the
updated `previous_risk_scores` map.

The source reads `impact_zone` unconditionally at line 625 while assigning
it only inside the climate-zone branch (line 529); when
`calculate_climate_risk` found no zone this raises `UnboundLocalError`
*after* `detect_surge` already updated the map, which the final `match cr`
mirrors. -/
structure MidResult where
  acc : StageAcc
  hfp : Bool
  hep : Bool
  driver : Option String
deriving Repr, DecidableEq

/-- The scoring pipeline of `calculate_risk_score` from the base score to
the climate-conflict correlation (lines 365-548); `none` models an
exception raised inside a reason f-string (see `miningStage` /
`borderStage`). -/
def riskCore (dist : DistFn) (ds : Datasets) (e : Event) (ed : EconRow) :
    Option MidResult :=
  let eventType := pyLower (e.event_type.getD "")
  let state := pyStrip (e.state.getD "")
  let lga := pyStrip (e.lga.getD "")
  let sev := pyLower (e.severity.getD "")
  let acc0 := baseStages eventType sev ed.Inflation ed.Fuel_Price
  let strat := get_strategic_indicators ds.strategic state
  let acc1 := floodStage (find_climate_data ds.climate state lga) eventType acc0
  let acc2 := stressStage (strat.map (·.climate_vulnerability)) acc1
  match miningStage (find_nearest_mining_site dist ds.mining e) acc2 with
  | none => none
  | some (acc3, hfp) =>
    let dres := densityStage (strat.map (·.mining_density)) acc3
    match borderStage (find_border_data ds.border state lga) state dres.1 with
    | none => none
    | some acc5 =>
      let acc6 := migrationStage (is_farmer_herder_conflict e)
        (strat.map (·.migration_pressure)) acc5
      let zres := zoneStage (calculate_climate_risk ds.zones e) acc6
      some ⟨zres.1, hfp, dres.2, zres.2⟩

/-- Lines 553-584: trigger-reason assembly (surge clause appended last,
default text when no reason fired, escalation tag prepended). -/
def triggerOf (eventType : String) (mid : MidResult) (si : SurgeResult)
    (level : String) : String :=
  let reasons := mid.acc.reasons ++
    (if si.surge_detected then [surgeClause si.percentage_increase] else [])
  let body :=
    if reasons = [] then
      "Standard risk calculation based on " ++ eventType ++ " event"
    else pyJoin "; " reasons
  (if mid.hep then "[HIGH ESCALATION POTENTIAL] " else "") ++
    level ++ " Risk: " ++ body

/-- The keyword arguments of the `RiskSignal(...)` call (lines 586-628),
restricted to the fields the pydantic model actually has. -/
def signalRecord (dist : DistFn) (ds : Datasets) (e : Event) (ed : EconRow)
    (mid : MidResult) (si : SurgeResult) : RiskSignal :=
  let state := pyStrip (e.state.getD "")
  let lga := pyStrip (e.lga.getD "")
  let cd := find_climate_data ds.climate state lga
  let nearest := find_nearest_mining_site dist ds.mining e
  let bd := find_border_data ds.border state lga
  let risk_score := clampScore mid.acc.score
  let level := riskLevelOf risk_score
  { event_type := e.event_type.getD "unknown"
    state := state
    lga := lga
    severity := e.severity.getD "unknown"
    fuel_price := ed.Fuel_Price
    inflation := ed.Inflation
    risk_score := round1 risk_score
    risk_level := level
    source_title := e.source_title.getD ""
    source_url := e.source_url.getD ""
    trigger_reason := triggerOf (pyLower (e.event_type.getD "")) mid si level
    flood_inundation_index := cd.map (fun c => c.flood_inundation_index.getD 0)
    precipitation_anomaly := cd.map (fun c => c.precipitation_anomaly.getD 0)
    vegetation_health_index := cd.map (fun c => c.vegetation_health_index.getD 0)
    mining_proximity_km := nearest.map (·.2)
    mining_site_name := nearest.bind (·.1.site_name)
    high_funding_potential := mid.hfp
    informal_taxation_rate := nearest.bind (·.1.informal_taxation_rate)
    border_activity := bd.bind (·.border_activity)
    lakurawa_presence := (bd.map (fun b => b.lakurawa_presence_confirmed.getD false)).getD false
    border_permeability_score := bd.bind (·.border_permeability_score)
    group_affiliation := bd.bind (·.group_affiliation)
    sophisticated_ied_usage := (bd.map (fun b => b.sophisticated_ied_usage.getD false)).getD false }

def calculate_risk_score (dist : DistFn) (ds : Datasets) (e : Event)
    (econ : List EconRow) (m : SurgeMap) : Option RiskSignal × SurgeMap :=
  match find_economic_data econ e with
  | none => (none, m)
  | some ed =>
    match riskCore dist ds e ed with
    | none => (none, m)
    | some mid =>
      match detect_surge m (pyStrip (e.state.getD "")) (pyStrip (e.lga.getD ""))
          (clampScore mid.acc.score) with
      | none => (none, m)
      | some (si, m2) =>
        match calculate_climate_risk ds.zones e with
        | none => (none, m2)   -- UnboundLocalError on `impact_zone` (line 625)
        | some _ => (mkRiskSignal (signalRecord dist ds e ed mid si), m2)

/-! ## Simulator path: `calculate_risk_score_dynamic` (lines 634-815) -/

def round3 (q : ℚ) : ℚ := (pyRoundHE (q * 1000) : ℚ) / 1000

/-- The dict returned by `calculate_risk_score_dynamic` (lines 789-811);
`calculated_at` omitted (wall clock). -/
structure DynResult where
  event_type : String
  state : String
  lga : String
  severity : String
  latitude : ℚ
  longitude : ℚ
  risk_score : ℚ
  risk_level : String
  status : String
  category : String
  confidence : ℤ
  source_title : String
  source_url : String
  trigger_reason : String
  heatmap_weight : ℚ
  heatmap_radius_km : ℚ
  is_urban : Bool
  fuel_price_index : ℚ
  inflation_rate : ℚ
  chatter_intensity : ℚ
deriving Repr, DecidableEq

def dynFloodClause (fi : ℚ) : String :=
  "Flooding-induced displacement (" ++ fmtFixed 1 fi ++ "% inundated)"

def dynMiningClause (dkm : ℚ) : String :=
  "High Funding Potential (" ++ fmtFixed 1 dkm ++ "km from mining)"

def dynInflClause (i : ℚ) : String :=
  "High inflation (" ++ fmtFixed 1 i ++ "%)"

def dynFuelClause (idx : ℚ) : String :=
  "Elevated fuel prices (index: " ++ fmtFixed 0 idx ++ "/100)"

def urbanClause (idx : ℚ) : String :=
  "Economic Crisis in Urban Center (fuel index: " ++ fmtFixed 0 idx ++
    ") - 1.5x multiplier applied"

/-- `RiskService.calculate_risk_score_dynamic`.  The `econ_data` argument of
the source is never read and is dropped.  Events whose latitude or
longitude is missing or `0.0` (Python truthiness) return `None`. -/
def calculate_risk_score_dynamic (dist : DistFn) (ds : Datasets) (e : Event)
    (fuel_price_index inflation_rate chatter_intensity : ℚ) :
    Option DynResult :=
  let eventType := pyLower (e.event_type.getD "")
  let state := pyStrip (e.state.getD "")
  let lga := pyStrip (e.lga.getD "")
  let sev := pyLower (e.severity.getD "")
  if truthyQ e.latitude = true ∧ truthyQ e.longitude = true then
    let s0 : ℚ := Config.BASE_RISK_SCORE + eventTypeScore eventType + severityModifier sev
    let a1 : StageAcc :=
      if inflation_rate > Config.INFLATION_THRESHOLD then
        ⟨s0 + min ((inflation_rate - Config.INFLATION_THRESHOLD) * 2) 20,
         [dynInflClause inflation_rate]⟩
      else ⟨s0, []⟩
    let a2 : StageAcc :=
      let withBonus := a1.score + fuel_price_index / 100 * 20
      if fuel_price_index > 50 then ⟨withBonus, a1.reasons ++ [dynFuelClause fuel_price_index]⟩
      else ⟨withBonus, a1.reasons⟩
    let cd := find_climate_data ds.climate state lga
    let a3 : StageAcc :=
      match cd with
      | none => a2
      | some c =>
          let fi := c.flood_inundation_index.getD 0
          if fi > 20 ∧ eventType ∈ ["clash", "conflict", "violence"] then
            ⟨a2.score * (3/2), a2.reasons ++ [dynFloodClause fi]⟩
          else a2
    let nearest := find_nearest_mining_site dist ds.mining e
    let a4 : StageAcc :=
      match nearest with
      | none => a3
      | some (_, dkm) =>
          if truthyQ (some dkm) = true ∧ dkm < 10 then
            ⟨a3.score + 15, a3.reasons ++ [dynMiningClause dkm]⟩
          else a3
    let bd := find_border_data ds.border state lga
    let a5 : StageAcc :=
      match bd with
      | none => a4
      | some b =>
          if b.border_activity = some "High" ∧ pyLower state ∈ ["sokoto", "kebbi"] then
            ⟨a4.score + 20, a4.reasons ++ ["Lakurawa Presence Detected"]⟩
          else if b.border_activity = some "Critical" then
            ⟨a4.score + 15, a4.reasons ++ ["Critical border activity"]⟩
          else if b.border_activity = some "High" then
            ⟨a4.score + 10, a4.reasons ++ ["High border activity"]⟩
          else a4
    let is_urban := Config.is_urban_lga lga
    let a6 : StageAcc :=
      if fuel_price_index > 80 ∧ is_urban = true then
        ⟨a5.score * (3/2), a5.reasons ++ [urbanClause fuel_price_index]⟩
      else a5
    let risk_score := clampScore a6.score
    let level := riskLevelOf risk_score
    let status :=
      if risk_score ≥ 80 then "CRITICAL"
      else if risk_score ≥ 60 then "HIGH"
      else if risk_score ≥ 40 then "MEDIUM"
      else if risk_score ≥ 20 then "LOW"
      else "MINIMAL"
    let heatmap_radius_km := 5 + chatter_intensity / 100 * (50 - 5)
    let heatmap_weight := min 1 (risk_score / 100 * (1 + chatter_intensity / 100))
    let trigger :=
      if a6.reasons = [] then level ++ " Risk: Standard calculation"
      else level ++ " Risk: " ++ pyJoin "; " a6.reasons
    let cc := get_category_confidence (e.event_type.getD "unknown")
    some
      { event_type := e.event_type.getD "unknown"
        state := state
        lga := lga
        severity := sev
        latitude := e.latitude.getD 0
        longitude := e.longitude.getD 0
        risk_score := round1 risk_score
        risk_level := level
        status := status
        category := cc.1
        confidence := cc.2
        source_title := e.source_title.getD ""
        source_url := e.source_url.getD ""
        trigger_reason := trigger
        heatmap_weight := round3 heatmap_weight
        heatmap_radius_km := round1 heatmap_radius_km
        is_urban := is_urban
        fuel_price_index := fuel_price_index
        inflation_rate := inflation_rate
        chatter_intensity := chatter_intensity }
  else none

/-! ## DeduplicationService (src/scraper/services/deduplication.py)

The embedding is parametric in the hash function `h`:
`generate_fingerprint` applies SHA-256 to non-empty content and returns
`""` for empty content.  No claim depends on concrete hash values, only on
grouping by equal fingerprints, so every theorem holds for the actual
SHA-256. -/

structure Feat where
  verification_needed : Bool := false
deriving Repr, DecidableEq

/-- An article dict as handled by `deduplicate_and_score`.  A missing or
empty `fingerprint` key is modelled as `""` (the source treats both alike:
`'fingerprint' not in article or not article['fingerprint']`). -/
structure Article where
  title : String := ""
  content : String := ""
  source : String := ""
  fingerprint : String := ""
  features : Option Feat := none
  veracity_score : ℚ := 0
  source_count : ℕ := 0
deriving Repr, DecidableEq

/-- `DeduplicationService.generate_fingerprint` (lines 13-25), parametric
in the hash `h`. -/
def generate_fingerprint (h : String → String) (content : String) : String :=
  if content = "" then "" else h content

/-- First pass of `deduplicate_and_score` (lines 45-49): fill in a missing
fingerprint from `title + content`. -/
def assignFingerprint (h : String → String) (a : Article) : Article :=
  if a.fingerprint = "" then
    { a with fingerprint := generate_fingerprint h (a.title ++ a.content) }
  else a

/-- Lines 60-82 for one fingerprint group: representative = first article
of the group, `source_count` = number of distinct sources, `veracity_score
= min(1.0, source_count * 0.5)`, `verification_needed` set when multiple
sources and a `features` dict is present. -/
def scoreGroup (group : List Article) (primary : Article) : Article :=
  let sc : ℕ := ((group.map (·.source)).dedup).length
  let vs : ℚ := min 1 (sc * (1/2))
  let base := { primary with veracity_score := vs, source_count := sc }
  if sc > 1 then
    match base.features with
    | none => base
    | some f => { base with features := some { f with verification_needed := decide (vs < 4/5) } }
  else base

/-- `DeduplicationService.deduplicate_and_score` (lines 28-85).  The
Python set `processed_fingerprints` has no specified iteration order; the
embedding iterates it in `List.dedup` order.  Every claim proved below is
order-independent. -/
def deduplicate_and_score (h : String → String) (articles : List Article) :
    List Article :=
  let processed := articles.map (assignFingerprint h)
  let fps := ((processed.map (·.fingerprint)).filter (fun f => f ≠ "")).dedup
  fps.filterMap (fun f =>
    match processed.filter (fun a => a.fingerprint = f) with
    | [] => none
    | a :: rest => some (scoreGroup (a :: rest) a))

/-! ## LLMService field validation (src/intelligence-api/services/llm_service.py)

`call_ollama_llm` parses the model response into a JSON object and then
checks `required_fields = ["Event_Type", "State", "LGA", "Severity"]`
(lines 80-91); only these four keys gate acceptance.  A JSON value and the
parsed object are embedded directly; the HTTP transport and the
fence-stripping are upstream of the checked logic. -/

inductive PyVal where
  | str (s : String)
  | num (q : ℚ)
  | arr (l : List PyVal)
  | nil

/-- Python truthiness of a JSON value. -/
def truthyVal : PyVal → Bool
  | .str s => s ≠ ""
  | .num q => decide (q ≠ 0)
  | .arr l => !l.isEmpty
  | .nil => false

/-- `x or default` in Python. -/
def pyOrVal (v d : PyVal) : PyVal := if truthyVal v then v else d

def jsonGet (obj : List (String × PyVal)) (k : String) : Option PyVal :=
  obj.lookup k

/-- The record returned on acceptance (lines 83-88). -/
structure LLMFields where
  event_type : PyVal
  state : PyVal
  lga : PyVal
  severity : PyVal

def llmRequiredFields : List String := ["Event_Type", "State", "LGA", "Severity"]

/-- Lines 80-91: accept iff all four required keys are present; the three
social-signal keys of the system prompt are not checked. -/
def validate_llm_fields (obj : List (String × PyVal)) : Option LLMFields :=
  if llmRequiredFields.all (fun k => (jsonGet obj k).isSome) then
    some
      { event_type := (jsonGet obj "Event_Type").getD (.str "unknown")
        state := pyOrVal ((jsonGet obj "State").getD (.str "unknown")) (.str "unknown")
        lga := pyOrVal ((jsonGet obj "LGA").getD (.str "unknown")) (.str "unknown")
        severity := pyOrVal ((jsonGet obj "Severity").getD (.str "unknown")) (.str "unknown") }
  else none

/-! ## Shared lemmas about the scoring stages -/

theorem eventTypeScore_ge (t : String) : 5 ≤ eventTypeScore t := by
  unfold eventTypeScore
  repeat' split
  all_goals norm_num

theorem severityModifier_ge (s : String) : 3 ≤ severityModifier s := by
  unfold severityModifier
  repeat' split
  all_goals norm_num

theorem inflStage_score_ge (infl : ℚ) (acc : StageAcc) :
    acc.score ≤ (inflStage infl acc).score := by
  unfold inflStage Config.INFLATION_THRESHOLD
  split
  · rename_i hi
    simp only []
    have : (0 : ℚ) ≤ min ((infl - 20) * 2) 20 := le_min (by linarith) (by norm_num)
    linarith
  · exact le_refl _

theorem fuelStage_score_ge (fuel : ℚ) (acc : StageAcc) :
    acc.score ≤ (fuelStage fuel acc).score := by
  unfold fuelStage Config.FUEL_PRICE_THRESHOLD
  split
  · rename_i hf
    simp only []
    have : (0 : ℚ) ≤ min ((fuel - 650) * (1/10)) 10 := le_min (by linarith) (by norm_num)
    linarith
  · exact le_refl _

theorem bumpStage_score_ge (et : String) (infl : ℚ) (acc : StageAcc) :
    acc.score ≤ (bumpStage et infl acc).score := by
  unfold bumpStage
  split
  · exact le_max_left _ _
  · exact le_refl _

theorem baseStages_score_ge (et sv : String) (infl fuel : ℚ) :
    38 ≤ (baseStages et sv infl fuel).score := by
  have h1 := eventTypeScore_ge et
  have h2 := severityModifier_ge sv
  have h0 : (38 : ℚ) ≤ Config.BASE_RISK_SCORE + eventTypeScore et + severityModifier sv := by
    unfold Config.BASE_RISK_SCORE; linarith
  calc (38 : ℚ)
      ≤ (⟨Config.BASE_RISK_SCORE + eventTypeScore et + severityModifier sv, []⟩ : StageAcc).score := h0
    _ ≤ (inflStage infl _).score := inflStage_score_ge infl _
    _ ≤ (fuelStage fuel _).score := fuelStage_score_ge fuel _
    _ ≤ (bumpStage et infl _).score := bumpStage_score_ge et infl _

theorem baseStages_score_ge_81 (et sv : String) (infl fuel : ℚ)
    (hclash : et = "clash") (hinf : infl > Config.INFLATION_THRESHOLD) :
    81 ≤ (baseStages et sv infl fuel).score := by
  unfold baseStages bumpStage
  rw [if_pos ⟨hclash, hinf⟩]
  exact le_max_right _ _

theorem floodStage_score_ge (cd : Option ClimateRow) (et : String)
    (acc : StageAcc) (h : 0 ≤ acc.score) :
    acc.score ≤ (floodStage cd et acc).score := by
  unfold floodStage
  cases cd with
  | none => exact le_refl _
  | some c =>
      simp only []
      split
      · simp only []; linarith
      · exact le_refl _

theorem stressStage_score_ge (cv : Option ℚ) (acc : StageAcc) :
    acc.score ≤ (stressStage cv acc).score := by
  unfold stressStage
  split
  · rename_i hc
    simp only []
    nlinarith [hc.2]
  · exact le_refl _

theorem miningStage_score_ge (site : Option (MiningSite × ℚ)) (acc : StageAcc)
    (out : StageAcc × Bool) (h : miningStage site acc = some out) :
    acc.score ≤ out.1.score := by
  unfold miningStage at h
  cases site with
  | none => simp only [] at h; cases h; exact le_refl _
  | some sd =>
      simp only [] at h
      split at h
      · cases htax : sd.1.informal_taxation_rate with
        | none => rw [htax] at h; cases h
        | some tax =>
            rw [htax] at h
            cases h
            simp only []
            linarith
      · cases h; exact le_refl _

theorem densityStage_score_ge (md : Option ℚ) (acc : StageAcc) :
    acc.score ≤ (densityStage md acc).1.score := by
  unfold densityStage
  split
  · rename_i hc
    simp only []
    nlinarith [hc.2]
  · exact le_refl _

theorem borderStage_score_ge (bd : Option BorderRow) (state : String)
    (acc : StageAcc) (out : StageAcc) (h : borderStage bd state acc = some out) :
    acc.score ≤ out.score := by
  unfold borderStage at h
  cases bd with
  | none => simp only [] at h; cases h; exact le_refl _
  | some b =>
      simp only [] at h
      split at h
      · cases hp : b.border_permeability_score with
        | none => rw [hp] at h; cases h
        | some perm => rw [hp] at h; cases h; simp only []; linarith
      · split at h
        · cases hp : b.border_permeability_score with
          | none => rw [hp] at h; cases h
          | some perm => rw [hp] at h; cases h; simp only []; linarith
        · split at h
          · cases h; simp only []; linarith
          · cases h; exact le_refl _

theorem migrationStage_score_ge (isFH : Bool) (mp : Option ℚ) (acc : StageAcc)
    (h : 0 ≤ acc.score) :
    acc.score ≤ (migrationStage isFH mp acc).score := by
  unfold migrationStage
  split
  · rename_i hc
    simp only []
    nlinarith [hc.2.2]
  · exact le_refl _

theorem zoneStage_score_ge (cr : Option ClimateRiskInfo) (acc : StageAcc) :
    acc.score ≤ (zoneStage cr acc).1.score := by
  unfold zoneStage
  cases cr with
  | none => exact le_refl _
  | some info =>
      simp only []
      split
      · simp only []; linarith
      · split
        · simp only []; linarith
        · exact le_refl _

/-! ## Shared lemmas about trigger reasons -/

theorem strContains_append_right (a b c : String) (h : strContains b c) :
    strContains (a ++ b) c := by
  unfold strContains at h ⊢
  rw [String.data_append]
  exact h.trans (List.suffix_append a.data b.data).isInfix

theorem strContains_append_left (a b c : String) (h : strContains a c) :
    strContains (a ++ b) c := by
  unfold strContains at h ⊢
  rw [String.data_append]
  exact h.trans (List.prefix_append a.data b.data).isInfix

theorem strContains_of_isPrefix (s c c' : String) (h : strContains s c)
    (hp : c'.data <+: c.data) : strContains s c' :=
  List.IsInfix.trans hp.isInfix h

theorem strContains_refl (s : String) : strContains s s := List.infix_rfl

theorem strContains_pyJoin (sep : String) (L : List String) (c : String)
    (h : c ∈ L) : strContains (pyJoin sep L) c := by
  induction L with
  | nil => cases h
  | cons a rest ih =>
      cases rest with
      | nil =>
          rcases List.mem_singleton.mp h with rfl
          exact strContains_refl c
      | cons b rest' =>
          rcases List.mem_cons.mp h with rfl | hmem
          · show strContains (c ++ sep ++ pyJoin sep (b :: rest')) c
            exact strContains_append_left _ _ _ (strContains_append_left _ _ _ (strContains_refl c))
          · show strContains (a ++ sep ++ pyJoin sep (b :: rest')) c
            exact strContains_append_right _ _ _ (ih hmem)

theorem inflStage_reasons_mono (infl : ℚ) (acc : StageAcc) (c : String)
    (h : c ∈ acc.reasons) : c ∈ (inflStage infl acc).reasons := by
  unfold inflStage; split
  · exact List.mem_append_left _ h
  · exact h

theorem inflStage_fired (infl : ℚ) (acc : StageAcc)
    (h : infl > Config.INFLATION_THRESHOLD) :
    inflClause infl ∈ (inflStage infl acc).reasons := by
  unfold inflStage
  rw [if_pos h]
  exact List.mem_append_right _ (List.mem_singleton.mpr rfl)

theorem fuelStage_reasons_mono (fuel : ℚ) (acc : StageAcc) (c : String)
    (h : c ∈ acc.reasons) : c ∈ (fuelStage fuel acc).reasons := by
  unfold fuelStage; split
  · exact List.mem_append_left _ h
  · exact h

theorem fuelStage_fired (fuel : ℚ) (acc : StageAcc)
    (h : fuel > Config.FUEL_PRICE_THRESHOLD) :
    fuelClause fuel ∈ (fuelStage fuel acc).reasons := by
  unfold fuelStage
  rw [if_pos h]
  exact List.mem_append_right _ (List.mem_singleton.mpr rfl)

theorem bumpStage_reasons_mono (et : String) (infl : ℚ) (acc : StageAcc) (c : String)
    (h : c ∈ acc.reasons) : c ∈ (bumpStage et infl acc).reasons := by
  unfold bumpStage; split
  · exact h
  · exact h

theorem floodStage_reasons_mono (cd : Option ClimateRow) (et : String)
    (acc : StageAcc) (c : String) (h : c ∈ acc.reasons) :
    c ∈ (floodStage cd et acc).reasons := by
  unfold floodStage
  cases cd with
  | none => exact h
  | some cl =>
      simp only []
      split
      · exact List.mem_append_left _ h
      · exact h

theorem floodStage_fired (cl : ClimateRow) (et : String) (acc : StageAcc)
    (hfi : cl.flood_inundation_index.getD 0 > 20)
    (het : et ∈ ["clash", "conflict", "violence"]) :
    floodClause (cl.flood_inundation_index.getD 0) ∈
      (floodStage (some cl) et acc).reasons := by
  unfold floodStage
  simp only []
  rw [if_pos ⟨hfi, het⟩]
  exact List.mem_append_right _ (List.mem_singleton.mpr rfl)

theorem stressStage_reasons_mono (cv : Option ℚ) (acc : StageAcc) (c : String)
    (h : c ∈ acc.reasons) : c ∈ (stressStage cv acc).reasons := by
  unfold stressStage; split
  · exact List.mem_append_left _ h
  · exact h

theorem stressStage_fired (cv : Option ℚ) (acc : StageAcc)
    (h1 : truthyQ cv = true) (h2 : cv.getD 0 > 7/10) :
    stressClause (cv.getD 0) ∈ (stressStage cv acc).reasons := by
  unfold stressStage
  rw [if_pos ⟨h1, h2⟩]
  exact List.mem_append_right _ (List.mem_singleton.mpr rfl)

theorem miningStage_reasons_mono (site : Option (MiningSite × ℚ)) (acc : StageAcc)
    (out : StageAcc × Bool) (hout : miningStage site acc = some out) (c : String)
    (h : c ∈ acc.reasons) : c ∈ out.1.reasons := by
  unfold miningStage at hout
  cases site with
  | none => simp only [] at hout; cases hout; exact h
  | some sd =>
      simp only [] at hout
      split at hout
      · cases htax : sd.1.informal_taxation_rate with
        | none => rw [htax] at hout; cases hout
        | some tax =>
            rw [htax] at hout; cases hout
            exact List.mem_append_left _ h
      · cases hout; exact h

theorem miningStage_fired (sd : MiningSite × ℚ) (acc : StageAcc)
    (out : StageAcc × Bool) (hout : miningStage (some sd) acc = some out)
    (hc : truthyQ (some sd.2) = true ∧ sd.2 < 10) :
    ∃ tax, sd.1.informal_taxation_rate = some tax ∧
      miningClause sd.2 sd.1.site_name tax ∈ out.1.reasons ∧ out.2 = true := by
  unfold miningStage at hout
  simp only [] at hout
  rw [if_pos hc] at hout
  cases htax : sd.1.informal_taxation_rate with
  | none => rw [htax] at hout; cases hout
  | some tax =>
      rw [htax] at hout
      cases hout
      exact ⟨tax, rfl, List.mem_append_right _ (List.mem_singleton.mpr rfl), rfl⟩

theorem densityStage_reasons_mono (md : Option ℚ) (acc : StageAcc) (c : String)
    (h : c ∈ acc.reasons) : c ∈ (densityStage md acc).1.reasons := by
  unfold densityStage; split
  · exact List.mem_append_left _ h
  · exact h

theorem densityStage_fired (md : Option ℚ) (acc : StageAcc)
    (h1 : truthyQ md = true) (h2 : md.getD 0 > 3/5) :
    densityClause (md.getD 0) ∈ (densityStage md acc).1.reasons ∧
      (densityStage md acc).2 = true := by
  unfold densityStage
  rw [if_pos ⟨h1, h2⟩]
  exact ⟨List.mem_append_right _ (List.mem_singleton.mpr rfl), rfl⟩

theorem densityStage_flag (md : Option ℚ) (acc : StageAcc) :
    (densityStage md acc).2 = true ↔
      (truthyQ md = true ∧ md.getD 0 > 3/5) := by
  unfold densityStage
  split
  · rename_i hc
    exact ⟨fun _ => hc, fun _ => rfl⟩
  · rename_i hc
    constructor
    · intro h
      exact absurd h (by simp)
    · intro h
      exact absurd h hc

theorem borderStage_reasons_mono (bd : Option BorderRow) (state : String)
    (acc : StageAcc) (out : StageAcc) (hout : borderStage bd state acc = some out)
    (c : String) (h : c ∈ acc.reasons) : c ∈ out.reasons := by
  unfold borderStage at hout
  cases bd with
  | none => simp only [] at hout; cases hout; exact h
  | some b =>
      simp only [] at hout
      split at hout
      · cases hp : b.border_permeability_score with
        | none => rw [hp] at hout; cases hout
        | some perm => rw [hp] at hout; cases hout; exact List.mem_append_left _ h
      · split at hout
        · cases hp : b.border_permeability_score with
          | none => rw [hp] at hout; cases hout
          | some perm => rw [hp] at hout; cases hout; exact List.mem_append_left _ h
        · split at hout
          · cases hout; exact List.mem_append_left _ h
          · cases hout; exact h

theorem migrationStage_reasons_mono (isFH : Bool) (mp : Option ℚ) (acc : StageAcc)
    (c : String) (h : c ∈ acc.reasons) : c ∈ (migrationStage isFH mp acc).reasons := by
  unfold migrationStage; split
  · exact List.mem_append_left _ h
  · exact h

theorem migrationStage_fired (isFH : Bool) (mp : Option ℚ) (acc : StageAcc)
    (h1 : isFH = true) (h2 : truthyQ mp = true) (h3 : mp.getD 0 > 1/2) :
    migrationClause (mp.getD 0) ∈ (migrationStage isFH mp acc).reasons := by
  unfold migrationStage
  rw [if_pos ⟨h1, h2, h3⟩]
  exact List.mem_append_right _ (List.mem_singleton.mpr rfl)

theorem zoneStage_reasons_mono (cr : Option ClimateRiskInfo) (acc : StageAcc)
    (c : String) (h : c ∈ acc.reasons) : c ∈ (zoneStage cr acc).1.reasons := by
  unfold zoneStage
  cases cr with
  | none => exact h
  | some info =>
      simp only []
      split
      · exact List.mem_append_left _ h
      · split
        · exact List.mem_append_left _ h
        · exact h

theorem zoneStage_fired_high (info : ClimateRiskInfo) (acc : StageAcc)
    (h : info.is_high_impact = true) :
    zoneHighClause info.region info.recession_index info.conflict_correlation ∈
      (zoneStage (some info) acc).1.reasons := by
  unfold zoneStage
  simp only []
  rw [if_pos h]
  exact List.mem_append_right _ (List.mem_singleton.mpr rfl)

theorem zoneStage_fired_med (info : ClimateRiskInfo) (acc : StageAcc)
    (h : ¬ info.is_high_impact = true)
    (h2 : info.impact_zone ∈ ["Medium-High", "Medium"]) :
    zoneMedClause info.region info.impact_zone info.conflict_correlation ∈
      (zoneStage (some info) acc).1.reasons := by
  unfold zoneStage
  simp only []
  rw [if_neg h, if_pos h2]
  exact List.mem_append_right _ (List.mem_singleton.mpr rfl)

theorem borderStage_lakurawa (b : BorderRow) (state : String) (acc : StageAcc)
    (perm : ℚ)
    (hact : b.border_activity = some "High")
    (hstate : pyLower state ∈ ["sokoto", "kebbi"])
    (hperm : b.border_permeability_score = some perm) :
    borderStage (some b) state acc =
      some ⟨acc.score + 20, acc.reasons ++ [lakurawaClause perm]⟩ := by
  unfold borderStage
  simp only []
  rw [if_pos ⟨hact, hstate⟩, hperm]

theorem borderStage_critical (b : BorderRow) (state : String) (acc : StageAcc)
    (perm : ℚ)
    (hact : b.border_activity = some "Critical")
    (hperm : b.border_permeability_score = some perm) :
    borderStage (some b) state acc =
      some ⟨acc.score + 15, acc.reasons ++ [criticalBorderClause b.group_affiliation perm]⟩ := by
  unfold borderStage
  simp only []
  rw [if_neg (by simp [hact]), if_pos hact, hperm]

theorem borderStage_high (b : BorderRow) (state : String) (acc : StageAcc)
    (hact : b.border_activity = some "High")
    (hstate : ¬ pyLower state ∈ ["sokoto", "kebbi"]) :
    borderStage (some b) state acc =
      some ⟨acc.score + 10, acc.reasons ++ [highBorderClause b.group_affiliation]⟩ := by
  unfold borderStage
  simp only []
  rw [if_neg (by simp [hstate]), if_neg (by simp [hact]), if_pos hact]

/-! ## Inversion and bound lemmas for the full pipeline -/

theorem riskCore_score_ge (dist : DistFn) (ds : Datasets) (e : Event)
    (ed : EconRow) (mid : MidResult) (h : riskCore dist ds e ed = some mid)
    (base : ℚ)
    (hbase : base ≤ (baseStages (pyLower (e.event_type.getD ""))
      (pyLower (e.severity.getD "")) ed.Inflation ed.Fuel_Price).score)
    (hpos : 0 ≤ base) :
    base ≤ mid.acc.score := by
  unfold riskCore at h
  simp only [] at h
  set et := pyLower (e.event_type.getD "") with het
  set st := pyStrip (e.state.getD "") with hst
  set lg := pyStrip (e.lga.getD "") with hlg
  set sv := pyLower (e.severity.getD "") with hsv
  set strat := get_strategic_indicators ds.strategic st with hstrat
  set a0 := baseStages et sv ed.Inflation ed.Fuel_Price with ha0
  set a1 := floodStage (find_climate_data ds.climate st lg) et a0 with ha1
  set a2 := stressStage (strat.map (·.climate_vulnerability)) a1 with ha2
  split at h
  · cases h
  · rename_i acc3 hfp hmine
    set a4 := densityStage (strat.map (·.mining_density)) acc3 with ha4
    split at h
    · cases h
    · rename_i acc5 hborder
      cases h
      simp only []
      have h1 : a0.score ≤ a1.score := by
        rw [ha1]; exact floodStage_score_ge _ _ _ (by linarith)
      have h2 : a1.score ≤ a2.score := by
        rw [ha2]; exact stressStage_score_ge _ _
      have h3 : a2.score ≤ acc3.score := miningStage_score_ge _ _ _ hmine
      have h4 : acc3.score ≤ a4.1.score := by
        rw [ha4]; exact densityStage_score_ge _ _
      have h5 : a4.1.score ≤ acc5.score := borderStage_score_ge _ _ _ _ hborder
      have h6 : acc5.score ≤ (migrationStage (is_farmer_herder_conflict e)
          (strat.map (·.migration_pressure)) acc5).score :=
        migrationStage_score_ge _ _ _ (by linarith)
      have h7 := zoneStage_score_ge (calculate_climate_risk ds.zones e)
        (migrationStage (is_farmer_herder_conflict e)
          (strat.map (·.migration_pressure)) acc5)
      linarith

theorem detect_surge_map (m : SurgeMap) (state lga : String) (c : ℚ)
    (si : SurgeResult) (m' : SurgeMap)
    (h : detect_surge m state lga c = some (si, m')) :
    m' = mapSet m (state ++ ":" ++ lga) c := by
  unfold detect_surge at h
  simp only [] at h
  split at h
  · cases h; rfl
  · split at h
    · cases h
    · cases h; rfl

theorem mapSet_forall (m : SurgeMap) (k : String) (v : ℚ) (P : ℚ → Prop)
    (hm : ∀ kp ∈ m, P kp.2) (hv : P v) :
    ∀ kp ∈ mapSet m k v, P kp.2 := by
  induction m with
  | nil =>
      intro kp hkp
      unfold mapSet at hkp
      rcases List.mem_singleton.mp hkp with rfl
      exact hv
  | cons hd tl ih =>
      intro kp hkp
      unfold mapSet at hkp
      split at hkp
      · rcases List.mem_cons.mp hkp with rfl | hmem
        · exact hv
        · exact hm kp (List.mem_cons_of_mem hd hmem)
      · rcases List.mem_cons.mp hkp with rfl | hmem
        · exact hm _ (List.mem_cons_self _ _)
        · exact ih (fun x hx => hm x (List.mem_cons_of_mem hd hx)) kp hmem

theorem mkRiskSignal_some (s sig : RiskSignal) (h : mkRiskSignal s = some sig) :
    sig = s ∧ validSignal s := by
  unfold mkRiskSignal at h
  split at h
  · cases h; exact ⟨rfl, by assumption⟩
  · cases h

theorem calc_some_inv (dist : DistFn) (ds : Datasets) (e : Event)
    (econ : List EconRow) (m : SurgeMap) (sig : RiskSignal) (m2 : SurgeMap)
    (h : calculate_risk_score dist ds e econ m = (some sig, m2)) :
    ∃ ed mid si,
      find_economic_data econ e = some ed ∧
      riskCore dist ds e ed = some mid ∧
      detect_surge m (pyStrip (e.state.getD "")) (pyStrip (e.lga.getD ""))
        (clampScore mid.acc.score) = some (si, m2) ∧
      (calculate_climate_risk ds.zones e).isSome = true ∧
      validSignal (signalRecord dist ds e ed mid si) ∧
      sig = signalRecord dist ds e ed mid si := by
  unfold calculate_risk_score at h
  split at h
  · cases h
  · rename_i ed hecon
    split at h
    · cases h
    · rename_i mid hmid
      split at h
      · cases h
      · rename_i si m2' hsurge
        split at h
        · cases h
        · rename_i cri hcr
          rw [Prod.mk.injEq] at h
          obtain ⟨hsig, hm2⟩ := h
          subst hm2
          obtain ⟨hrfl, hvalid⟩ := mkRiskSignal_some _ _ hsig
          exact ⟨ed, mid, si, hecon, hmid, hsurge, by simp [hcr], hvalid, hrfl⟩

theorem calc_map_eq (dist : DistFn) (ds : Datasets) (e : Event)
    (econ : List EconRow) (m : SurgeMap) :
    (calculate_risk_score dist ds e econ m).2 = m ∨
    ∃ ed mid, find_economic_data econ e = some ed ∧
      riskCore dist ds e ed = some mid ∧
      (calculate_risk_score dist ds e econ m).2 =
        mapSet m (pyStrip (e.state.getD "") ++ ":" ++ pyStrip (e.lga.getD ""))
          (clampScore mid.acc.score) := by
  unfold calculate_risk_score
  split
  · exact Or.inl rfl
  · rename_i ed hecon
    split
    · exact Or.inl rfl
    · rename_i mid hmid
      split
      · exact Or.inl rfl
      · rename_i si m2' hsurge
        have hmap := detect_surge_map _ _ _ _ _ _ hsurge
        split
        · exact Or.inr ⟨ed, mid, hecon, hmid, hmap⟩
        · exact Or.inr ⟨ed, mid, hecon, hmid, hmap⟩

/-! ## Concrete fixtures for witnesses and counterexamples -/

/-- A concrete distance function for witnesses (the theorems hold for every
`DistFn`, including the source's Haversine). -/
def fixDist : DistFn := fun _ _ _ _ => 1000

/-- A climate-stress polygon with `impact_zone = "Low"`: events inside it
reach signal construction (no `UnboundLocalError`) without receiving a
climate bonus. -/
def fixZoneLow : ZoneFeature :=
  { geomType := "Polygon"
    rings := some [[(0, 0), (10, 0), (10, 10), (0, 10)]]
    region := some "TestZone"
    impact_zone := some "Low"
    conflict_correlation := some "" }

def fixDs : Datasets := { zones := [fixZoneLow] }

def evC1 : Event :=
  { event_type := some "conflict", state := some "Lagos", lga := some "Ikeja"
    severity := some "medium", source_title := some "Test Article"
    source_url := some "https://test.com/article"
    latitude := some 5, longitude := some 5 }

def econC1 : List EconRow := [⟨"Lagos", "Ikeja", 600, 22 + 31/64⟩]

def evC2 : Event :=
  { event_type := some "clash", state := some "Lagos", lga := some "Ikeja"
    severity := some "high", source_title := some "Test Article"
    source_url := some "https://test.com/article"
    latitude := some 5, longitude := some 5 }

def econC2 : List EconRow := [⟨"Lagos", "Ikeja", 700, 22⟩]

/-! ## Claim theorems -/

/-- C1 (corrected): for every signal produced by `calculate_risk_score`,
`risk_score` lies in `[0, 100]` and equals the clamped score rounded to one
decimal, and `risk_level` is the band of the clamped score *before*
rounding.  (The claim as frozen — `risk_level` is the band of the stored,
rounded `risk_score` — fails at band boundaries; see the counterexample.) -/
theorem C1_score_bounds_level_of_preround (dist : DistFn) (ds : Datasets)
    (e : Event) (econ : List EconRow) (m : SurgeMap) (sig : RiskSignal)
    (m2 : SurgeMap)
    (hrun : calculate_risk_score dist ds e econ m = (some sig, m2)) :
    0 ≤ sig.risk_score ∧ sig.risk_score ≤ 100 ∧
    ∃ s : ℚ, sig.risk_score = round1 (clampScore s) ∧
      sig.risk_level = riskLevelOf (clampScore s) := by
  obtain ⟨ed, mid, si, hecon, hmid, hsurge, hcr, hvalid, hsig⟩ :=
    calc_some_inv _ _ _ _ _ _ _ hrun
  subst hsig
  have hrs : (signalRecord dist ds e ed mid si).risk_score =
      round1 (clampScore mid.acc.score) := by
    simp only [signalRecord]
  have hrl : (signalRecord dist ds e ed mid si).risk_level =
      riskLevelOf (clampScore mid.acc.score) := by
    simp only [signalRecord]
  refine ⟨?_, ?_, mid.acc.score, hrs, hrl⟩
  · rw [hrs]
    have := round1_ge (clampScore mid.acc.score) 0
      (by exact_mod_cast clampScore_nonneg mid.acc.score)
    exact_mod_cast this
  · rw [hrs]
    have := round1_le (clampScore mid.acc.score) 100
      (by exact_mod_cast clampScore_le_100 mid.acc.score)
    exact_mod_cast this

set_option maxRecDepth 8000 in
/-- C1 witness: a concrete run producing a signal, instantiating
`C1_score_bounds_level_of_preround`. -/
theorem C1_witness :
    ∃ sig m2, calculate_risk_score fixDist fixDs evC2 econC2 [] = (some sig, m2) ∧
      0 ≤ sig.risk_score ∧ sig.risk_score ≤ 100 := by
  have hsome : (calculate_risk_score fixDist fixDs evC2 econC2 []).1.isSome = true := by
    simp +decide [calculate_risk_score, find_economic_data, pyLower, pyStrip,
      riskCore, baseStages, inflStage, fuelStage, bumpStage, eventTypeScore,
      severityModifier, Config.BASE_RISK_SCORE, Config.INFLATION_THRESHOLD,
      Config.FUEL_PRICE_THRESHOLD, get_strategic_indicators, find_climate_data,
      floodStage, stressStage, find_nearest_mining_site, nearestMiningAux,
      miningStage, densityStage, find_border_data, borderStage,
      is_farmer_herder_conflict, migrationStage, calculate_climate_risk,
      scanClimateZones, point_in_polygon, pipStep, mkClimateRiskInfo, zoneStage,
      clampScore, detect_surge, mapSet, riskLevelOf, round1, pyRoundHE,
      mkRiskSignal, validSignal, optBound, optLower, truthyQ, signalRecord,
      evC2, econC2, fixDs, fixZoneLow, fixDist, List.find?, List.lookup,
      farmerHerderKeywords, strContains, List.foldl, List.range]
    norm_num [Int.fract]
  obtain ⟨sig, hsig⟩ := Option.isSome_iff_exists.mp hsome
  have hrun : calculate_risk_score fixDist fixDs evC2 econC2 [] =
      (some sig, (calculate_risk_score fixDist fixDs evC2 econC2 []).2) :=
    Prod.ext hsig rfl
  have h := C1_score_bounds_level_of_preround fixDist fixDs evC2 econC2 [] sig _ hrun
  exact ⟨sig, _, hrun, h.1, h.2.1⟩

set_option maxRecDepth 8000 in
/-- C1 counterexample: the event `evC1` with inflation `22.484375` scores
`79.96875`, which is banded "High" (< 80) but stored as the rounded
`risk_score = 80.0`, whose band is "Critical".  The persisted `risk_level`
is therefore not the band of the persisted `risk_score`. -/
theorem C1_counterexample :
    ((calculate_risk_score fixDist fixDs evC1 econC1 []).1.map (·.risk_score),
     (calculate_risk_score fixDist fixDs evC1 econC1 []).1.map (·.risk_level)) =
      (some 80, some "High") ∧
    riskLevelOf 80 = "Critical" := by
  constructor
  · simp +decide [calculate_risk_score, find_economic_data, pyLower, pyStrip,
      riskCore, baseStages, inflStage, fuelStage, bumpStage, eventTypeScore,
      severityModifier, Config.BASE_RISK_SCORE, Config.INFLATION_THRESHOLD,
      Config.FUEL_PRICE_THRESHOLD, get_strategic_indicators, find_climate_data,
      floodStage, stressStage, find_nearest_mining_site, nearestMiningAux,
      miningStage, densityStage, find_border_data, borderStage,
      is_farmer_herder_conflict, migrationStage, calculate_climate_risk,
      scanClimateZones, point_in_polygon, pipStep, mkClimateRiskInfo, zoneStage,
      clampScore, detect_surge, mapSet, riskLevelOf, round1, pyRoundHE,
      mkRiskSignal, validSignal, optBound, optLower, truthyQ, signalRecord,
      evC1, econC1, fixDs, fixZoneLow, fixDist, List.find?, List.lookup,
      farmerHerderKeywords, strContains, List.foldl, List.range]
    norm_num [Int.fract]
  · norm_num [riskLevelOf]

/-- C2 (confirmed): every signal produced for an event whose lowered
`event_type` is `"clash"` with a matched economic row whose inflation
exceeds 20 has `risk_score ≥ 81`: the bump sets the score to at least 81
and every later stage and the clamp keep it there. -/
theorem C2_clash_inflation_score_ge_81 (dist : DistFn) (ds : Datasets)
    (e : Event) (econ : List EconRow) (m : SurgeMap) (sig : RiskSignal)
    (m2 : SurgeMap) (ed : EconRow)
    (hecon : find_economic_data econ e = some ed)
    (hclash : pyLower (e.event_type.getD "") = "clash")
    (hinfl : ed.Inflation > 20)
    (hrun : calculate_risk_score dist ds e econ m = (some sig, m2)) :
    81 ≤ sig.risk_score := by
  obtain ⟨ed', mid, si, hecon', hmid, hsurge, hcr, hvalid, hsig⟩ :=
    calc_some_inv _ _ _ _ _ _ _ hrun
  have hed : ed' = ed := by
    have := hecon.symm.trans hecon'
    exact (Option.some.inj this).symm
  subst hed
  have hbase : (81 : ℚ) ≤ (baseStages (pyLower (e.event_type.getD ""))
      (pyLower (e.severity.getD "")) ed'.Inflation ed'.Fuel_Price).score :=
    baseStages_score_ge_81 _ _ _ _ hclash
      (by unfold Config.INFLATION_THRESHOLD; exact hinfl)
  have hmidge : (81 : ℚ) ≤ mid.acc.score :=
    riskCore_score_ge dist ds e ed' mid hmid 81 hbase (by norm_num)
  have hclamp : (81 : ℚ) ≤ clampScore mid.acc.score :=
    clampScore_ge _ _ hmidge (by norm_num)
  have : sig.risk_score = round1 (clampScore mid.acc.score) := by
    rw [hsig]; simp only [signalRecord]
  rw [this]
  have := round1_ge (clampScore mid.acc.score) 81 (by exact_mod_cast hclamp)
  exact_mod_cast this

set_option maxRecDepth 8000 in
/-- C2 witness: the clash event `evC2` (inflation 22 > 20) produces a
signal with `risk_score ≥ 81`, via `C2_clash_inflation_score_ge_81`. -/
theorem C2_witness :
    ∃ sig m2, calculate_risk_score fixDist fixDs evC2 econC2 [] = (some sig, m2) ∧
      81 ≤ sig.risk_score := by
  have hsome : (calculate_risk_score fixDist fixDs evC2 econC2 []).1.isSome = true := by
    simp +decide [calculate_risk_score, find_economic_data, pyLower, pyStrip,
      riskCore, baseStages, inflStage, fuelStage, bumpStage, eventTypeScore,
      severityModifier, Config.BASE_RISK_SCORE, Config.INFLATION_THRESHOLD,
      Config.FUEL_PRICE_THRESHOLD, get_strategic_indicators, find_climate_data,
      floodStage, stressStage, find_nearest_mining_site, nearestMiningAux,
      miningStage, densityStage, find_border_data, borderStage,
      is_farmer_herder_conflict, migrationStage, calculate_climate_risk,
      scanClimateZones, point_in_polygon, pipStep, mkClimateRiskInfo, zoneStage,
      clampScore, detect_surge, mapSet, riskLevelOf, round1, pyRoundHE,
      mkRiskSignal, validSignal, optBound, optLower, truthyQ, signalRecord,
      evC2, econC2, fixDs, fixZoneLow, fixDist, List.find?, List.lookup,
      farmerHerderKeywords, strContains, List.foldl, List.range]
    norm_num [Int.fract]
  obtain ⟨sig, hsig⟩ := Option.isSome_iff_exists.mp hsome
  have hrun : calculate_risk_score fixDist fixDs evC2 econC2 [] =
      (some sig, (calculate_risk_score fixDist fixDs evC2 econC2 []).2) :=
    Prod.ext hsig rfl
  have hecon : find_economic_data econC2 evC2 = some ⟨"Lagos", "Ikeja", 700, 22⟩ := by
    simp +decide [find_economic_data, pyLower, pyStrip, econC2, evC2, List.find?]
  refine ⟨sig, _, hrun, ?_⟩
  exact C2_clash_inflation_score_ge_81 fixDist fixDs evC2 econC2 [] sig _
    ⟨"Lagos", "Ikeja", 700, 22⟩ hecon (by decide) (by norm_num) hrun

theorem lookup_mem (m : SurgeMap) (k : String) (v : ℚ)
    (h : m.lookup k = some v) : (k, v) ∈ m := by
  induction m with
  | nil => cases h
  | cons hd tl ih =>
      rw [List.lookup] at h
      split at h
      · rename_i hbeq
        cases h
        have hk : k = hd.1 := eq_of_beq hbeq
        rw [hk]
        exact List.mem_cons_self _ _
      · exact List.mem_cons_of_mem hd (ih h)

/-- C10 (confirmed): when the surge map holds only scores written by
`calculate_risk_score` under the default configuration, every stored score
is the clamp of a value at least `BASE_RISK_SCORE (30) + 5 + 3 = 38`, so
the map invariant `38 ≤ score` is preserved and the divisor read by
`detect_surge` is never zero. -/
theorem C10_surge_division_safe (dist : DistFn) (ds : Datasets) (e : Event)
    (econ : List EconRow) (m : SurgeMap)
    (hm : ∀ kp ∈ m, (38 : ℚ) ≤ kp.2) :
    (∀ kp ∈ (calculate_risk_score dist ds e econ m).2, (38 : ℚ) ≤ kp.2) ∧
    (∀ key p, m.lookup key = some p → p ≠ 0) := by
  constructor
  · rcases calc_map_eq dist ds e econ m with heq | ⟨ed, mid, hecon, hmid, heq⟩
    · rw [heq]; exact hm
    · rw [heq]
      apply mapSet_forall _ _ _ _ hm
      have h38 : (38 : ℚ) ≤ mid.acc.score :=
        riskCore_score_ge dist ds e ed mid hmid 38
          (baseStages_score_ge _ _ _ _) (by norm_num)
      exact clampScore_ge _ _ h38 (by norm_num)
  · intro key p hp
    have hmem := lookup_mem m key p hp
    have := hm (key, p) hmem
    intro h0
    rw [h0] at this
    norm_num at this

theorem sev_lower_mem (s : String)
    (h : s ∈ (["low", "medium", "high", "critical"] : List String)) :
    pyLower s ∈ (["low", "medium", "high", "critical"] : List String) := by
  simp only [List.mem_cons, List.not_mem_nil, or_false] at h
  rcases h with rfl | rfl | rfl | rfl <;> decide

/-- C9 (confirmed): `calculate_risk_score` returns a signal only when the
event's severity (lowercased) is one of low/medium/high/critical, its
`source_title` has 3..200 characters and its `source_url` at least 10;
and for a severity outside that set (`severe`, `moderate`, `minor`,
`unknown`, ...) the pydantic pattern check fails and no signal is
returned. -/
theorem C9_severity_validation (dist : DistFn) (ds : Datasets) (e : Event)
    (econ : List EconRow) (m : SurgeMap) :
    (∀ sig m2, calculate_risk_score dist ds e econ m = (some sig, m2) →
      pyLower (e.severity.getD "unknown") ∈
          (["low", "medium", "high", "critical"] : List String) ∧
        3 ≤ (e.source_title.getD "").length ∧
        (e.source_title.getD "").length ≤ 200 ∧
        10 ≤ (e.source_url.getD "").length) ∧
    (pyLower (e.severity.getD "unknown") ∉
        (["low", "medium", "high", "critical"] : List String) →
      (calculate_risk_score dist ds e econ m).1 = none) := by
  have hraw : ∀ s : String, s ∈ (["low", "medium", "high", "critical"] : List String) →
      pyLower s ∈ (["low", "medium", "high", "critical"] : List String) :=
    sev_lower_mem
  constructor
  · intro sig m2 hrun
    obtain ⟨ed, mid, si, hecon, hmid, hsurge, hcr, hvalid, hsig⟩ :=
      calc_some_inv _ _ _ _ _ _ _ hrun
    simp only [signalRecord, validSignal] at hvalid
    obtain ⟨_, _, _, _, _, _, hsev, _, _, _, _, _, ht1, ht2, hu, _⟩ := hvalid
    exact ⟨hraw _ hsev, ht1, ht2, hu⟩
  · intro hbad
    unfold calculate_risk_score
    split
    · rfl
    · rename_i ed hecon
      split
      · rfl
      · rename_i mid hmid
        split
        · rfl
        · rename_i si m2' hsurge
          split
          · rfl
          · rename_i cri hcr
            show mkRiskSignal _ = none
            unfold mkRiskSignal
            split
            · rename_i hv
              exfalso
              simp only [signalRecord, validSignal] at hv
              obtain ⟨_, _, _, _, _, _, hsev, _⟩ := hv
              exact hbad (hraw _ hsev)
            · rfl

def evC9 : Event :=
  { event_type := some "conflict", state := some "Lagos", lga := some "Ikeja"
    severity := some "severe", source_title := some "Test Article"
    source_url := some "https://test.com/article"
    latitude := some 5, longitude := some 5 }

/-- C9 witness: severity `"severe"` (accepted by the severity-modifier
table for scoring) never yields a signal, via `C9_severity_validation`. -/
theorem C9_witness : (calculate_risk_score fixDist fixDs evC9 econC1 []).1 = none :=
  (C9_severity_validation fixDist fixDs evC9 econC1 []).2 (by decide)

/-- C3 (corrected): `detect_surge` flags a surge iff a previous score is
stored for the location and the increase exceeds 20%, and always rewrites
the map entry to the current score; but when a surge is flagged the
warning clause is *appended after* all other trigger reasons (the claim
says it is prepended; see the counterexample). -/
theorem C3_surge_iff_append (mm : SurgeMap) (state lga : String) (c : ℚ)
    (si : SurgeResult) (m' : SurgeMap)
    (h : detect_surge mm state lga c = some (si, m')) :
    (si.surge_detected = true ↔
      ∃ p, mm.lookup (state ++ ":" ++ lga) = some p ∧ (c - p) / p * 100 > 20) ∧
    m' = mapSet mm (state ++ ":" ++ lga) c ∧
    (∀ et mid level, si.surge_detected = true →
      triggerOf et mid si level =
        (if mid.hep then "[HIGH ESCALATION POTENTIAL] " else "") ++
          level ++ " Risk: " ++
          pyJoin "; " (mid.acc.reasons ++ [surgeClause si.percentage_increase])) := by
  refine ⟨?_, detect_surge_map _ _ _ _ _ _ h, ?_⟩
  · unfold detect_surge at h
    simp only [] at h
    split at h
    · rename_i hl
      cases h
      constructor
      · intro hf
        exact absurd hf (by simp)
      · rintro ⟨p, hp, _⟩
        rw [hl] at hp
        cases hp
    · rename_i p hl
      split at h
      · cases h
      · rename_i hp0
        cases h
        constructor
        · intro hdec
          exact ⟨p, hl, of_decide_eq_true hdec⟩
        · rintro ⟨p', hp', hgt⟩
          rw [hl] at hp'
          cases Option.some.inj hp'
          exact decide_eq_true hgt
  · intro et mid level hdet
    unfold triggerOf
    rw [hdet]
    simp only [if_true]
    have hne : mid.acc.reasons ++ [surgeClause si.percentage_increase] ≠ [] := by
      simp
    rw [if_neg hne]

/-- C3 witness: a concrete surge (50 → 100 at `Lagos:Ikeja`) instantiating
`C3_surge_iff_append`: the map entry is rewritten to the current score. -/
theorem C3_witness :
    ([("Lagos:Ikeja", (100 : ℚ))] : SurgeMap) =
      mapSet [("Lagos:Ikeja", 50)] ("Lagos" ++ ":" ++ "Ikeja") 100 := by
  have h : detect_surge [("Lagos:Ikeja", (50 : ℚ))] "Lagos" "Ikeja" 100 =
      some (⟨true, 100, some 50, 100⟩, [("Lagos:Ikeja", 100)]) := by
    simp +decide [detect_surge, mapSet, round1, pyRoundHE, List.lookup]
    norm_num [Int.fract]
  exact (C3_surge_iff_append _ _ _ _ _ _ h).2.1

def evS1 : Event :=
  { event_type := some "sports", state := some "Lagos", lga := some "Ikeja"
    severity := some "low", source_title := some "Test Article"
    source_url := some "https://test.com/article" }

def evS2 : Event :=
  { event_type := some "conflict", state := some "Lagos", lga := some "Ikeja"
    severity := some "critical", source_title := some "Test Article"
    source_url := some "https://test.com/article"
    latitude := some 5, longitude := some 5 }

def econS : List EconRow := [⟨"Lagos", "Ikeja", 600, 25⟩]

set_option maxRecDepth 8000 in
/-- C3 counterexample: after a first scoring stores 50 for `Lagos:Ikeja`, a
second scoring of the same location surges to 100; the surge-alert clause
appears at the *end* of `trigger_reason`, after the inflation clause — it
is appended, not prepended as the claim states. -/
theorem C3_counterexample :
    ((calculate_risk_score fixDist fixDs evS2 econS
        (calculate_risk_score fixDist fixDs evS1 econS []).2).1.map
      (·.trigger_reason)) =
      some ("Critical Risk: " ++ inflClause 25 ++ "; " ++ surgeClause 100) ∧
    (("Critical Risk: " ++ surgeClause 100).data.isPrefixOf
      ("Critical Risk: " ++ inflClause 25 ++ "; " ++ surgeClause 100).data) = false := by
  constructor
  · simp +decide [calculate_risk_score, find_economic_data, pyLower, pyStrip,
      riskCore, baseStages, inflStage, fuelStage, bumpStage, eventTypeScore,
      severityModifier, Config.BASE_RISK_SCORE, Config.INFLATION_THRESHOLD,
      Config.FUEL_PRICE_THRESHOLD, get_strategic_indicators, find_climate_data,
      floodStage, stressStage, find_nearest_mining_site, nearestMiningAux,
      miningStage, densityStage, find_border_data, borderStage,
      is_farmer_herder_conflict, migrationStage, calculate_climate_risk,
      scanClimateZones, point_in_polygon, pipStep, mkClimateRiskInfo, zoneStage,
      clampScore, detect_surge, mapSet, riskLevelOf, round1, pyRoundHE,
      mkRiskSignal, validSignal, optBound, optLower, truthyQ, signalRecord,
      triggerOf, surgeClause, inflClause, fmtFloat, fmtFixed, fmtFixedNat,
      padZeros, findDecExp, pyJoin, evS1, evS2, econS, fixDs, fixZoneLow,
      fixDist, List.find?, List.lookup, farmerHerderKeywords, strContains,
      List.foldl, List.range]
    norm_num [Int.fract]
    decide
  · decide

/-- C10 witness: a concrete run starting from the empty map, via
`C10_surge_division_safe`. -/
theorem C10_witness :
    (∀ kp ∈ (calculate_risk_score fixDist fixDs evC2 econC2 []).2,
      (38 : ℚ) ≤ kp.2) ∧
    (∀ key p, ([] : SurgeMap).lookup key = some p → p ≠ 0) :=
  C10_surge_division_safe fixDist fixDs evC2 econC2 [] (by simp)

theorem isPrefix_append (a b c : String) (h : c.data <+: a.data) :
    c.data <+: (a ++ b).data := by
  rw [String.data_append]
  exact h.trans (List.prefix_append _ _)

/-- Any clause recorded among the scoring reasons occurs as a substring of
the assembled trigger reason. -/
theorem triggerOf_contains (et : String) (mid : MidResult) (si : SurgeResult)
    (level : String) (c : String) (hc : c ∈ mid.acc.reasons) :
    strContains (triggerOf et mid si level) c := by
  unfold triggerOf
  simp only []
  have hmem : c ∈ mid.acc.reasons ++
      (if si.surge_detected then [surgeClause si.percentage_increase] else []) :=
    List.mem_append_left _ hc
  rw [if_neg (List.ne_nil_of_mem hmem)]
  exact strContains_append_right _ _ _ (strContains_pyJoin _ _ _ hmem)

/-! Abbreviations for the intermediate values of `riskCore` (definitionally
equal to the corresponding subterms of its body). -/

abbrev evType (e : Event) : String := pyLower (e.event_type.getD "")
abbrev evSev (e : Event) : String := pyLower (e.severity.getD "")
abbrev evState (e : Event) : String := pyStrip (e.state.getD "")
abbrev evLga (e : Event) : String := pyStrip (e.lga.getD "")
abbrev stratOf (ds : Datasets) (e : Event) : Option StrategicRow :=
  get_strategic_indicators ds.strategic (evState e)
abbrev acc2Of (ds : Datasets) (e : Event) (ed : EconRow) : StageAcc :=
  stressStage ((stratOf ds e).map (·.climate_vulnerability))
    (floodStage (find_climate_data ds.climate (evState e) (evLga e)) (evType e)
      (baseStages (evType e) (evSev e) ed.Inflation ed.Fuel_Price))

theorem riskCore_unfold (dist : DistFn) (ds : Datasets) (e : Event)
    (ed : EconRow) (mid : MidResult) (h : riskCore dist ds e ed = some mid) :
    ∃ acc3 hfp acc5,
      miningStage (find_nearest_mining_site dist ds.mining e) (acc2Of ds e ed) =
        some (acc3, hfp) ∧
      borderStage (find_border_data ds.border (evState e) (evLga e)) (evState e)
        (densityStage ((stratOf ds e).map (·.mining_density)) acc3).1 = some acc5 ∧
      mid.acc = (zoneStage (calculate_climate_risk ds.zones e)
        (migrationStage (is_farmer_herder_conflict e)
          ((stratOf ds e).map (·.migration_pressure)) acc5)).1 ∧
      mid.hfp = hfp ∧
      mid.hep = (densityStage ((stratOf ds e).map (·.mining_density)) acc3).2 ∧
      mid.driver = (zoneStage (calculate_climate_risk ds.zones e)
        (migrationStage (is_farmer_herder_conflict e)
          ((stratOf ds e).map (·.migration_pressure)) acc5)).2 := by
  unfold riskCore at h
  simp only [] at h
  split at h
  · cases h
  · rename_i acc3 hfp hmine
    split at h
    · cases h
    · rename_i acc5 hborder
      cases h
      exact ⟨acc3, hfp, acc5, hmine, hborder, rfl, rfl, rfl, rfl⟩

/-- C6 (corrected): border scoring.  `border_activity = High` in Sokoto or
Kebbi (case-insensitive) adds 20 and records the "Lakurawa Presence
Detected" clause; otherwise `Critical` adds 15 and `High` adds 10.  The
signal's `lakurawa_presence` field, however, is *copied from the border
record's `lakurawa_presence_confirmed`*, not set to true by the branch
(see the counterexample). -/
theorem C6_sahelian_border :
    (∀ b state acc (perm : ℚ), b.border_activity = some "High" →
      pyLower state ∈ ["sokoto", "kebbi"] →
      b.border_permeability_score = some perm →
      borderStage (some b) state acc =
        some ⟨acc.score + 20, acc.reasons ++ [lakurawaClause perm]⟩) ∧
    (∀ b state acc (perm : ℚ), b.border_activity = some "Critical" →
      b.border_permeability_score = some perm →
      borderStage (some b) state acc =
        some ⟨acc.score + 15,
          acc.reasons ++ [criticalBorderClause b.group_affiliation perm]⟩) ∧
    (∀ b state acc, b.border_activity = some "High" →
      ¬ pyLower state ∈ ["sokoto", "kebbi"] →
      borderStage (some b) state acc =
        some ⟨acc.score + 10, acc.reasons ++ [highBorderClause b.group_affiliation]⟩) ∧
    (∀ dist ds e econ m sig m2,
      calculate_risk_score dist ds e econ m = (some sig, m2) →
      sig.lakurawa_presence =
        ((find_border_data ds.border (evState e) (evLga e)).map
          (fun b => b.lakurawa_presence_confirmed.getD false)).getD false ∧
      (∀ b (perm : ℚ),
        find_border_data ds.border (evState e) (evLga e) = some b →
        b.border_activity = some "High" →
        pyLower (evState e) ∈ ["sokoto", "kebbi"] →
        b.border_permeability_score = some perm →
        strContains sig.trigger_reason "Lakurawa Presence Detected")) := by
  refine ⟨borderStage_lakurawa, borderStage_critical, borderStage_high, ?_⟩
  intro dist ds e econ m sig m2 hrun
  obtain ⟨ed, mid, si, hecon, hmid, hsurge, hcr, hvalid, hsig⟩ :=
    calc_some_inv _ _ _ _ _ _ _ hrun
  constructor
  · rw [hsig]
    simp only [signalRecord]
  · intro b perm hbd hact hstate hperm
    obtain ⟨acc3, hfp, acc5, hmine, hborder, hmidacc, _, _, _⟩ :=
      riskCore_unfold _ _ _ _ _ hmid
    rw [hbd] at hborder
    rw [borderStage_lakurawa b (evState e) _ perm hact hstate hperm] at hborder
    have hacc5 := Option.some.inj hborder
    have hin5 : lakurawaClause perm ∈ acc5.reasons := by
      rw [← hacc5]
      exact List.mem_append_right _ (List.mem_singleton.mpr rfl)
    have hinmid : lakurawaClause perm ∈ mid.acc.reasons := by
      rw [hmidacc]
      exact zoneStage_reasons_mono _ _ _
        (migrationStage_reasons_mono _ _ _ _ hin5)
    have htrig : sig.trigger_reason =
        triggerOf (evType e) mid si (riskLevelOf (clampScore mid.acc.score)) := by
      rw [hsig]
      simp only [signalRecord]
    rw [htrig]
    have hcont := triggerOf_contains (evType e) mid si
      (riskLevelOf (clampScore mid.acc.score)) _ hinmid
    apply strContains_of_isPrefix _ _ _ hcont
    unfold lakurawaClause
    apply isPrefix_append
    apply isPrefix_append
    apply isPrefix_append
    decide

def bW6 : BorderRow :=
  { state := "Sokoto", lga := "Illela", border_activity := some "High"
    lakurawa_presence_confirmed := some false
    border_permeability_score := some (17/20)
    group_affiliation := some "Lakurawa"
    sophisticated_ied_usage := some true }

/-- C6 witness: the Lakurawa branch on a concrete Sokoto record, via
`C6_sahelian_border`: +20 and the "Lakurawa Presence Detected" clause. -/
theorem C6_witness :
    borderStage (some bW6) "Sokoto" ⟨85, []⟩ =
      some ⟨85 + 20, [] ++ [lakurawaClause (17/20)]⟩ :=
  C6_sahelian_border.1 bW6 "Sokoto" ⟨85, []⟩ (17/20) rfl (by decide) rfl

def evC6 : Event :=
  { event_type := some "conflict", state := some "Sokoto", lga := some "Illela"
    severity := some "high", source_title := some "Test Article"
    source_url := some "https://test.com/article"
    latitude := some 5, longitude := some 5 }

def econC6 : List EconRow := [⟨"Sokoto", "Illela", 600, 10⟩]

def dsC6 : Datasets := { zones := [fixZoneLow], border := [bW6] }

set_option maxRecDepth 8000 in
/-- C6 counterexample: a Sokoto event matching a High-activity border
record whose `lakurawa_presence_confirmed` is `false`.  The branch fires
(the trigger reason contains "Lakurawa Presence Detected") yet the
signal's `lakurawa_presence` is `false`: the field is copied from the
record, not set to true as the claim states. -/
theorem C6_counterexample :
    ((calculate_risk_score fixDist dsC6 evC6 econC6 []).1.map
      (·.lakurawa_presence) = some false) ∧
    ((calculate_risk_score fixDist dsC6 evC6 econC6 []).1.map
      (fun s => decide (strContains s.trigger_reason
        "Lakurawa Presence Detected")) = some true) := by
  constructor <;>
  · simp +decide [calculate_risk_score, find_economic_data, pyLower, pyStrip,
      riskCore, baseStages, inflStage, fuelStage, bumpStage, eventTypeScore,
      severityModifier, Config.BASE_RISK_SCORE, Config.INFLATION_THRESHOLD,
      Config.FUEL_PRICE_THRESHOLD, get_strategic_indicators, find_climate_data,
      floodStage, stressStage, find_nearest_mining_site, nearestMiningAux,
      miningStage, densityStage, find_border_data, borderStage,
      is_farmer_herder_conflict, migrationStage, calculate_climate_risk,
      scanClimateZones, point_in_polygon, pipStep, mkClimateRiskInfo, zoneStage,
      clampScore, detect_surge, mapSet, riskLevelOf, round1, pyRoundHE,
      mkRiskSignal, validSignal, optBound, optLower, truthyQ, signalRecord,
      triggerOf, surgeClause, lakurawaClause, fmtFloat, fmtFixed, fmtFixedNat,
      padZeros, findDecExp, pyJoin, strContains, evC6, econC6, dsC6, bW6,
      fixZoneLow, fixDist, List.find?, List.lookup, farmerHerderKeywords,
      List.foldl, List.range]
    try norm_num [Int.fract]
    try decide

/-- C8 (corrected): with all three sliders at 0 the slider contributions
vanish, but location-based reference data (climate flood multiplier,
mining proximity, border activity) still applies.  When no reference row
matches the event — as the amended claim requires — the returned
`risk_score` is exactly the clamp of base + event-type + severity. -/
theorem C8_sliders_zero_base_score (dist : DistFn) (ds : Datasets) (e : Event)
    (hlat : truthyQ e.latitude = true) (hlon : truthyQ e.longitude = true)
    (hcd : find_climate_data ds.climate (evState e) (evLga e) = none)
    (hbd : find_border_data ds.border (evState e) (evLga e) = none)
    (hmine : ∀ s (d : ℚ), find_nearest_mining_site dist ds.mining e = some (s, d) →
      ¬ (truthyQ (some d) = true ∧ d < 10)) :
    (calculate_risk_score_dynamic dist ds e 0 0 0).map (·.risk_score) =
      some (round1 (clampScore (Config.BASE_RISK_SCORE +
        eventTypeScore (evType e) + severityModifier (evSev e)))) := by
  unfold calculate_risk_score_dynamic
  rw [if_pos ⟨hlat, hlon⟩]
  simp only [hcd, hbd, Config.INFLATION_THRESHOLD]
  rw [if_neg (by norm_num : ¬ (0 : ℚ) > 20)]
  cases hne : find_nearest_mining_site dist ds.mining e with
  | none =>
      simp only [hne]
      rw [if_neg (by norm_num : ¬ (0 : ℚ) > 50)]
      simp only []
      rw [if_neg (by norm_num : ¬ ((0 : ℚ) > 80 ∧ Config.is_urban_lga (evLga e) = true))]
      simp only [Option.map_some]
      norm_num
  | some sd =>
      simp only [hne]
      rw [if_neg (by norm_num : ¬ (0 : ℚ) > 50)]
      simp only []
      rw [if_neg (hmine sd.1 sd.2 (by rw [hne]))]
      rw [if_neg (by norm_num : ¬ ((0 : ℚ) > 80 ∧ Config.is_urban_lga (evLga e) = true))]
      simp only [Option.map_some]
      norm_num

def evC8 : Event :=
  { event_type := some "protest", state := some "Borno", lga := some "Ngala"
    severity := some "low", source_title := some "Test Article"
    source_url := some "https://test.com/article"
    latitude := some 5, longitude := some 5 }

/-- C8 witness: a concrete event with no matching reference data, via
`C8_sliders_zero_base_score`. -/
theorem C8_witness :
    (calculate_risk_score_dynamic fixDist {} evC8 0 0 0).map (·.risk_score) =
      some (round1 (clampScore (Config.BASE_RISK_SCORE +
        eventTypeScore (evType evC8) + severityModifier (evSev evC8)))) := by
  apply C8_sliders_zero_base_score
  · decide
  · decide
  · rfl
  · rfl
  · intro s d h
    simp [find_nearest_mining_site, nearestMiningAux, truthyQ, evC8] at h

def bC8 : BorderRow :=
  { state := "Borno", lga := "Ngala", border_activity := some "Critical" }

def dsC8 : Datasets := { border := [bC8] }

set_option maxRecDepth 8000 in
/-- C8 counterexample: with all sliders at 0, an event matching a
`Critical` border record scores `clamp(30 + 25 + 5) + 15 = 75`, not the
pure base + event-type + severity contribution `60` the claim requires. -/
theorem C8_counterexample :
    (calculate_risk_score_dynamic fixDist dsC8 evC8 0 0 0).map (·.risk_score) =
      some 75 ∧
    clampScore (Config.BASE_RISK_SCORE + eventTypeScore "protest" +
      severityModifier "low") = 60 ∧
    ¬ ((calculate_risk_score_dynamic fixDist dsC8 evC8 0 0 0).map (·.risk_score) =
      some (round1 (clampScore (Config.BASE_RISK_SCORE +
        eventTypeScore (evType evC8) + severityModifier (evSev evC8))))) := by
  have h1 : (calculate_risk_score_dynamic fixDist dsC8 evC8 0 0 0).map (·.risk_score) =
      some 75 := by
    simp +decide [calculate_risk_score_dynamic, pyLower, pyStrip,
      eventTypeScore, severityModifier, Config.BASE_RISK_SCORE,
      Config.INFLATION_THRESHOLD, Config.is_urban_lga, Config.URBAN_LGAS,
      find_climate_data, find_nearest_mining_site, nearestMiningAux,
      find_border_data, get_category_confidence, clampScore, riskLevelOf,
      round1, round3, pyRoundHE, truthyQ, dynInflClause, dynFuelClause,
      dynFloodClause, dynMiningClause, urbanClause, pyJoin, evC8, dsC8, bC8,
      fixDist, List.find?, List.foldl, List.range]
    norm_num [Int.fract]
  have h2 : clampScore (Config.BASE_RISK_SCORE + eventTypeScore "protest" +
      severityModifier "low") = 60 := by
    simp +decide [clampScore, Config.BASE_RISK_SCORE, eventTypeScore,
      severityModifier]
    norm_num
  refine ⟨h1, h2, ?_⟩
  intro hbad
  rw [h1] at hbad
  have h3 : round1 (clampScore (Config.BASE_RISK_SCORE +
      eventTypeScore (evType evC8) + severityModifier (evSev evC8))) = 60 := by
    simp +decide [clampScore, Config.BASE_RISK_SCORE, eventTypeScore,
      severityModifier, evC8, pyLower]
    norm_num [round1, pyRoundHE, Int.fract]
  rw [h3] at hbad
  have := Option.some.inj hbad
  norm_num at this

/-! ## C4: deduplication -/

theorem scoreGroup_fields (g : List Article) (p : Article) :
    (scoreGroup g p).source_count = ((g.map (·.source)).dedup).length ∧
    (scoreGroup g p).veracity_score =
      min 1 ((((g.map (·.source)).dedup).length : ℚ) * (1/2)) ∧
    (scoreGroup g p).fingerprint = p.fingerprint := by
  unfold scoreGroup
  simp only []
  split
  · split
    · exact ⟨rfl, rfl, rfl⟩
    · exact ⟨rfl, rfl, rfl⟩
  · exact ⟨rfl, rfl, rfl⟩

/-- C4 (confirmed): every article returned by `deduplicate_and_score` is
the scored representative (first element) of the group of processed
articles sharing its fingerprint; its `source_count` is the number of
distinct sources in that group (hence at least 1) and its
`veracity_score = min(1, 0.5 * source_count)`. -/
theorem C4_dedup_representative (h : String → String) (articles : List Article)
    (a : Article) (ha : a ∈ deduplicate_and_score h articles) :
    ∃ b rest,
      (articles.map (assignFingerprint h)).filter
        (fun x => x.fingerprint = a.fingerprint) = b :: rest ∧
      a = scoreGroup (b :: rest) b ∧
      a.source_count = (((b :: rest).map (·.source)).dedup).length ∧
      1 ≤ a.source_count ∧
      a.veracity_score = min 1 ((a.source_count : ℚ) * (1/2)) := by
  unfold deduplicate_and_score at ha
  simp only [] at ha
  rw [List.mem_filterMap] at ha
  obtain ⟨f, hf, hmatch⟩ := ha
  cases hg : (articles.map (assignFingerprint h)).filter (fun x => x.fingerprint = f) with
  | nil => rw [hg] at hmatch; cases hmatch
  | cons b rest =>
      rw [hg] at hmatch
      have ha2 : a = scoreGroup (b :: rest) b := (Option.some.inj hmatch).symm
      have hfields := scoreGroup_fields (b :: rest) b
      have hbf : b.fingerprint = f := by
        have hb : b ∈ (articles.map (assignFingerprint h)).filter
            (fun x => x.fingerprint = f) := by
          rw [hg]; exact List.mem_cons_self _ _
        have := List.of_mem_filter hb
        exact of_decide_eq_true this
      have haf : a.fingerprint = f := by
        rw [ha2, hfields.2.2, hbf]
      refine ⟨b, rest, ?_, ha2, ?_, ?_, ?_⟩
      · rw [haf]; exact hg
      · rw [ha2]; exact hfields.1
      · rw [ha2, hfields.1]
        have hne : ((b :: rest).map (·.source)).dedup ≠ [] := by
          rw [Ne, List.dedup_eq_nil]
          simp
        exact Nat.one_le_iff_ne_zero.mpr
          (by simp [List.length_eq_zero, hne])
      · rw [ha2, hfields.2.1, hfields.1]

def hW : String → String := fun s => "#" ++ s

def artA : Article := { title := "T", content := "C", source := "SrcA" }
def artB : Article := { title := "T", content := "C", source := "SrcB" }

def repW : Article :=
  { title := "T", content := "C", source := "SrcA", fingerprint := "#TC"
    veracity_score := 1, source_count := 2 }

/-- C4 witness: two same-content articles from different sources collapse
to one representative with `source_count = 2` and `veracity_score = 1`,
instantiating `C4_dedup_representative`. -/
theorem C4_witness :
    ∃ b rest,
      ([artA, artB].map (assignFingerprint hW)).filter
        (fun x => x.fingerprint = repW.fingerprint) = b :: rest ∧
      repW = scoreGroup (b :: rest) b ∧
      repW.source_count = (((b :: rest).map (·.source)).dedup).length ∧
      1 ≤ repW.source_count ∧
      repW.veracity_score = min 1 ((repW.source_count : ℚ) * (1/2)) := by
  apply C4_dedup_representative hW [artA, artB] repW
  have : deduplicate_and_score hW [artA, artB] = [repW] := by
    simp +decide [deduplicate_and_score, assignFingerprint, generate_fingerprint,
      scoreGroup, artA, artB, repW, hW, List.filterMap, List.filter, List.dedup]
    try norm_num
  rw [this]
  exact List.mem_singleton.mpr rfl

/-! ## C7: LLM required-field validation -/

/-- C7 (corrected): the Classifier accepts a parsed model response iff the
*four* keys `Event_Type`, `State`, `LGA`, `Severity` are present; the
three social-signal keys of the system prompt (`Sentiment_Intensity`,
`Hate_Speech_Indicators`, `Conflict_Driver`) are not checked. -/
theorem C7_four_keys_required (obj : List (String × PyVal)) :
    (validate_llm_fields obj).isSome = true ↔
      ((jsonGet obj "Event_Type").isSome = true ∧
       (jsonGet obj "State").isSome = true ∧
       (jsonGet obj "LGA").isSome = true ∧
       (jsonGet obj "Severity").isSome = true) := by
  unfold validate_llm_fields llmRequiredFields
  split
  · rename_i hall
    simp only [List.all_cons, List.all_nil, Bool.and_true, Bool.and_eq_true] at hall
    simp only [Option.isSome_some, true_iff]
    exact ⟨hall.1, hall.2.1, hall.2.2.1, hall.2.2.2⟩
  · rename_i hall
    simp only [List.all_cons, List.all_nil, Bool.and_true, Bool.and_eq_true] at hall
    constructor
    · intro hfalse
      exact absurd hfalse (by simp)
    · intro hkeys
      exact absurd hkeys hall

def obj4 : List (String × PyVal) :=
  [("Event_Type", .str "clash"), ("State", .str "Lagos"),
   ("LGA", .str "Ikeja"), ("Severity", .str "high")]

/-- C7 counterexample: a response carrying only the four core keys — all
three social-signal keys missing — is accepted, not discarded as the claim
requires. -/
theorem C7_counterexample :
    (validate_llm_fields obj4).isSome = true ∧
    (jsonGet obj4 "Sentiment_Intensity").isSome = false ∧
    (jsonGet obj4 "Hate_Speech_Indicators").isSome = false ∧
    (jsonGet obj4 "Conflict_Driver").isSome = false := by
  refine ⟨?_, by decide, by decide, by decide⟩
  unfold validate_llm_fields llmRequiredFields
  rw [if_pos (by decide)]
  rfl

/-- The mining-density branch condition (which sets
`high_escalation_potential`). -/
def hepFired (ds : Datasets) (e : Event) : Prop :=
  truthyQ ((stratOf ds e).map (·.mining_density)) = true ∧
    ((stratOf ds e).map (·.mining_density)).getD 0 > 3/5

instance (ds : Datasets) (e : Event) : Decidable (hepFired ds e) := by
  unfold hepFired; infer_instance

theorem riskCore_mem_from_acc2 (dist : DistFn) (ds : Datasets) (e : Event)
    (ed : EconRow) (mid : MidResult) (c : String)
    (h : riskCore dist ds e ed = some mid)
    (hc : c ∈ (acc2Of ds e ed).reasons) : c ∈ mid.acc.reasons := by
  obtain ⟨acc3, hfp, acc5, hmine, hborder, hmidacc, _, _, _⟩ :=
    riskCore_unfold _ _ _ _ _ h
  have h3 := miningStage_reasons_mono _ _ _ hmine c hc
  have h4 := densityStage_reasons_mono
    ((stratOf ds e).map (·.mining_density)) acc3 c h3
  have h5 := borderStage_reasons_mono _ _ _ _ hborder c h4
  rw [hmidacc]
  exact zoneStage_reasons_mono _ _ _ (migrationStage_reasons_mono _ _ _ _ h5)

/-- C5 (corrected): every signal's `trigger_reason` starts with
`"{risk_level} Risk: "`, prefixed by `"[HIGH ESCALATION POTENTIAL] "`
exactly when the mining-density branch fired; and it contains a clause for
every bonus or multiplier branch that fired — *except* the
clash-plus-inflation bump to 81, which appends no clause of its own (the
inflation clause appended by the inflation branch is always present when
the bump fires; see the counterexample). -/
theorem C5_trigger_reason_clauses (dist : DistFn) (ds : Datasets) (e : Event)
    (econ : List EconRow) (m : SurgeMap) (sig : RiskSignal) (m2 : SurgeMap)
    (ed : EconRow)
    (hecon : find_economic_data econ e = some ed)
    (hrun : calculate_risk_score dist ds e econ m = (some sig, m2)) :
    (∃ body, sig.trigger_reason =
      (if hepFired ds e then "[HIGH ESCALATION POTENTIAL] " else "") ++
        sig.risk_level ++ " Risk: " ++ body) ∧
    (ed.Inflation > Config.INFLATION_THRESHOLD →
      strContains sig.trigger_reason "High inflation (") ∧
    (ed.Fuel_Price > Config.FUEL_PRICE_THRESHOLD →
      strContains sig.trigger_reason "Elevated fuel prices (₦") ∧
    (∀ c, find_climate_data ds.climate (evState e) (evLga e) = some c →
      c.flood_inundation_index.getD 0 > 20 →
      evType e ∈ ["clash", "conflict", "violence"] →
      strContains sig.trigger_reason "Flooding-induced displacement") ∧
    (truthyQ ((stratOf ds e).map (·.climate_vulnerability)) = true →
      ((stratOf ds e).map (·.climate_vulnerability)).getD 0 > 7/10 →
      strContains sig.trigger_reason "High Climate Vulnerability") ∧
    (∀ s (d : ℚ), find_nearest_mining_site dist ds.mining e = some (s, d) →
      truthyQ (some d) = true → d < 10 →
      strContains sig.trigger_reason "High Funding Potential") ∧
    (hepFired ds e →
      strContains sig.trigger_reason
        "High Escalation Potential due to Illicit Funding") ∧
    (∀ b, find_border_data ds.border (evState e) (evLga e) = some b →
      b.border_activity = some "High" →
      pyLower (evState e) ∈ ["sokoto", "kebbi"] →
      strContains sig.trigger_reason "Lakurawa Presence Detected") ∧
    (∀ b, find_border_data ds.border (evState e) (evLga e) = some b →
      b.border_activity = some "Critical" →
      strContains sig.trigger_reason "Critical border activity") ∧
    (∀ b, find_border_data ds.border (evState e) (evLga e) = some b →
      b.border_activity = some "High" →
      ¬ pyLower (evState e) ∈ ["sokoto", "kebbi"] →
      strContains sig.trigger_reason "High border activity") ∧
    (is_farmer_herder_conflict e = true →
      truthyQ ((stratOf ds e).map (·.migration_pressure)) = true →
      ((stratOf ds e).map (·.migration_pressure)).getD 0 > 1/2 →
      strContains sig.trigger_reason
        "Farmer-Herder Conflict amplified by Migration Pressure") ∧
    (∀ info, calculate_climate_risk ds.zones e = some info →
      (info.is_high_impact = true ∨ info.impact_zone ∈ ["Medium-High", "Medium"]) →
      strContains sig.trigger_reason "Climate Stress Zone") := by
  obtain ⟨ed', mid, si, hecon', hmid, hsurge, hcr, hvalid, hsig⟩ :=
    calc_some_inv _ _ _ _ _ _ _ hrun
  have hed : ed' = ed := by
    have := hecon.symm.trans hecon'
    exact (Option.some.inj this).symm
  rw [hed] at hmid hvalid hsig
  obtain ⟨acc3, hfp, acc5, hmine, hborder, hmidacc, hmidhfp, hmidhep, _⟩ :=
    riskCore_unfold _ _ _ _ _ hmid
  have htrig : sig.trigger_reason =
      triggerOf (evType e) mid si (riskLevelOf (clampScore mid.acc.score)) := by
    rw [hsig]; simp only [signalRecord]
  have hlevel : sig.risk_level = riskLevelOf (clampScore mid.acc.score) := by
    rw [hsig]; simp only [signalRecord]
  have hcontain : ∀ c, c ∈ mid.acc.reasons →
      strContains sig.trigger_reason c := by
    intro c hc
    rw [htrig]
    exact triggerOf_contains _ _ _ _ _ hc
  have hcontainPre : ∀ c lit : String, c ∈ mid.acc.reasons →
      lit.data <+: c.data → strContains sig.trigger_reason lit := by
    intro c lit hc hp
    exact strContains_of_isPrefix _ _ _ (hcontain c hc) hp
  refine ⟨?_, ?_, ?_, ?_, ?_, ?_, ?_, ?_, ?_, ?_, ?_, ?_⟩
  · -- prefix and escalation tag
    rw [htrig, hlevel]
    unfold triggerOf
    simp only []
    have hhep : mid.hep = true ↔ hepFired ds e := by
      rw [hmidhep]
      exact densityStage_flag _ _
    have hif : (if mid.hep = true then "[HIGH ESCALATION POTENTIAL] " else "") =
        (if hepFired ds e then "[HIGH ESCALATION POTENTIAL] " else "") := by
      by_cases hf : hepFired ds e
      · rw [if_pos (hhep.mpr hf), if_pos hf]
      · rw [if_neg (fun hb => hf (hhep.mp hb)), if_neg hf]
    rw [hif]
    exact ⟨_, rfl⟩
  · -- inflation
    intro hi
    have h0 : inflClause ed.Inflation ∈
        (baseStages (evType e) (evSev e) ed.Inflation ed.Fuel_Price).reasons := by
      unfold baseStages
      exact bumpStage_reasons_mono _ _ _ _
        (fuelStage_reasons_mono _ _ _ (inflStage_fired _ _ hi))
    have h2 : inflClause ed.Inflation ∈ (acc2Of ds e ed).reasons :=
      stressStage_reasons_mono _ _ _ (floodStage_reasons_mono _ _ _ _ h0)
    apply hcontainPre _ _ (riskCore_mem_from_acc2 _ _ _ _ _ _ hmid h2)
    unfold inflClause
    apply isPrefix_append
    apply isPrefix_append
    decide
  · -- fuel
    intro hfu
    have h0 : fuelClause ed.Fuel_Price ∈
        (baseStages (evType e) (evSev e) ed.Inflation ed.Fuel_Price).reasons := by
      unfold baseStages
      exact bumpStage_reasons_mono _ _ _ _ (fuelStage_fired _ _ hfu)
    have h2 : fuelClause ed.Fuel_Price ∈ (acc2Of ds e ed).reasons :=
      stressStage_reasons_mono _ _ _ (floodStage_reasons_mono _ _ _ _ h0)
    apply hcontainPre _ _ (riskCore_mem_from_acc2 _ _ _ _ _ _ hmid h2)
    unfold fuelClause
    apply isPrefix_append
    apply isPrefix_append
    decide
  · -- flood
    intro c hc hfi het
    have h1 : floodClause (c.flood_inundation_index.getD 0) ∈
        (floodStage (find_climate_data ds.climate (evState e) (evLga e))
          (evType e)
          (baseStages (evType e) (evSev e) ed.Inflation ed.Fuel_Price)).reasons := by
      rw [hc]
      exact floodStage_fired _ _ _ hfi het
    have h2 : floodClause (c.flood_inundation_index.getD 0) ∈
        (acc2Of ds e ed).reasons :=
      stressStage_reasons_mono _ _ _ h1
    apply hcontainPre _ _ (riskCore_mem_from_acc2 _ _ _ _ _ _ hmid h2)
    unfold floodClause
    apply isPrefix_append
    apply isPrefix_append
    decide
  · -- climate stress
    intro ht hv
    have h2 : stressClause (((stratOf ds e).map (·.climate_vulnerability)).getD 0) ∈
        (acc2Of ds e ed).reasons :=
      stressStage_fired _ _ ht hv
    apply hcontainPre _ _ (riskCore_mem_from_acc2 _ _ _ _ _ _ hmid h2)
    unfold stressClause
    apply isPrefix_append
    apply isPrefix_append
    decide
  · -- mining proximity
    intro s d hs htd hd
    rw [hs] at hmine
    obtain ⟨tax, htax, hclmem, _⟩ :=
      miningStage_fired (s, d) _ _ hmine ⟨htd, hd⟩
    have h4 := densityStage_reasons_mono
      ((stratOf ds e).map (·.mining_density)) acc3 _ hclmem
    have h5 := borderStage_reasons_mono _ _ _ _ hborder _ h4
    have hfin : miningClause d s.site_name tax ∈ mid.acc.reasons := by
      rw [hmidacc]
      exact zoneStage_reasons_mono _ _ _
        (migrationStage_reasons_mono _ _ _ _ h5)
    apply hcontainPre _ _ hfin
    unfold miningClause
    apply isPrefix_append
    apply isPrefix_append
    apply isPrefix_append
    apply isPrefix_append
    apply isPrefix_append
    apply isPrefix_append
    decide
  · -- mining density / escalation
    intro hf
    obtain ⟨hclmem, _⟩ := densityStage_fired
      ((stratOf ds e).map (·.mining_density)) acc3 hf.1 hf.2
    have h5 := borderStage_reasons_mono _ _ _ _ hborder _ hclmem
    have hfin : densityClause (((stratOf ds e).map (·.mining_density)).getD 0) ∈
        mid.acc.reasons := by
      rw [hmidacc]
      exact zoneStage_reasons_mono _ _ _
        (migrationStage_reasons_mono _ _ _ _ h5)
    apply hcontainPre _ _ hfin
    unfold densityClause
    apply isPrefix_append
    apply isPrefix_append
    decide
  · -- Lakurawa
    intro b hb hact hstate
    rw [hb] at hborder
    have hperm : ∃ perm, b.border_permeability_score = some perm := by
      cases hp : b.border_permeability_score with
      | none =>
          exfalso
          unfold borderStage at hborder
          simp only [] at hborder
          rw [if_pos ⟨hact, hstate⟩, hp] at hborder
          cases hborder
      | some perm => exact ⟨perm, rfl⟩
    obtain ⟨perm, hp⟩ := hperm
    rw [borderStage_lakurawa b _ _ perm hact hstate hp] at hborder
    have h5 : lakurawaClause perm ∈ acc5.reasons := by
      rw [← Option.some.inj hborder]
      exact List.mem_append_right _ (List.mem_singleton.mpr rfl)
    have hfin : lakurawaClause perm ∈ mid.acc.reasons := by
      rw [hmidacc]
      exact zoneStage_reasons_mono _ _ _
        (migrationStage_reasons_mono _ _ _ _ h5)
    apply hcontainPre _ _ hfin
    unfold lakurawaClause
    apply isPrefix_append
    apply isPrefix_append
    apply isPrefix_append
    decide
  · -- Critical border
    intro b hb hact
    rw [hb] at hborder
    have hperm : ∃ perm, b.border_permeability_score = some perm := by
      cases hp : b.border_permeability_score with
      | none =>
          exfalso
          unfold borderStage at hborder
          simp only [] at hborder
          rw [if_neg (by simp [hact]), if_pos hact, hp] at hborder
          cases hborder
      | some perm => exact ⟨perm, rfl⟩
    obtain ⟨perm, hp⟩ := hperm
    rw [borderStage_critical b _ _ perm hact hp] at hborder
    have h5 : criticalBorderClause b.group_affiliation perm ∈ acc5.reasons := by
      rw [← Option.some.inj hborder]
      exact List.mem_append_right _ (List.mem_singleton.mpr rfl)
    have hfin : criticalBorderClause b.group_affiliation perm ∈ mid.acc.reasons := by
      rw [hmidacc]
      exact zoneStage_reasons_mono _ _ _
        (migrationStage_reasons_mono _ _ _ _ h5)
    apply hcontainPre _ _ hfin
    unfold criticalBorderClause
    apply isPrefix_append
    apply isPrefix_append
    apply isPrefix_append
    apply isPrefix_append
    decide
  · -- High border outside Sokoto/Kebbi
    intro b hb hact hstate
    rw [hb] at hborder
    rw [borderStage_high b _ _ hact hstate] at hborder
    have h5 : highBorderClause b.group_affiliation ∈ acc5.reasons := by
      rw [← Option.some.inj hborder]
      exact List.mem_append_right _ (List.mem_singleton.mpr rfl)
    have hfin : highBorderClause b.group_affiliation ∈ mid.acc.reasons := by
      rw [hmidacc]
      exact zoneStage_reasons_mono _ _ _
        (migrationStage_reasons_mono _ _ _ _ h5)
    apply hcontainPre _ _ hfin
    unfold highBorderClause
    apply isPrefix_append
    decide
  · -- migration
    intro hFH ht hmp
    have h6 : migrationClause (((stratOf ds e).map (·.migration_pressure)).getD 0) ∈
        (migrationStage (is_farmer_herder_conflict e)
          ((stratOf ds e).map (·.migration_pressure)) acc5).reasons :=
      migrationStage_fired _ _ _ hFH ht hmp
    have hfin : migrationClause (((stratOf ds e).map (·.migration_pressure)).getD 0) ∈
        mid.acc.reasons := by
      rw [hmidacc]
      exact zoneStage_reasons_mono _ _ _ h6
    apply hcontainPre _ _ hfin
    unfold migrationClause
    apply isPrefix_append
    apply isPrefix_append
    decide
  · -- climate-conflict zone
    intro info hinfo hzone
    rcases hzone with hhigh | hmed
    · have h7 : zoneHighClause info.region info.recession_index
          info.conflict_correlation ∈
          (zoneStage (calculate_climate_risk ds.zones e)
            (migrationStage (is_farmer_herder_conflict e)
              ((stratOf ds e).map (·.migration_pressure)) acc5)).1.reasons := by
        rw [hinfo]
        exact zoneStage_fired_high _ _ hhigh
      have hfin : zoneHighClause info.region info.recession_index
          info.conflict_correlation ∈ mid.acc.reasons := by
        rw [hmidacc]; exact h7
      apply hcontainPre _ _ hfin
      unfold zoneHighClause
      apply isPrefix_append
      apply isPrefix_append
      apply isPrefix_append
      apply isPrefix_append
      apply isPrefix_append
      decide
    · by_cases hhigh : info.is_high_impact = true
      · have h7 : zoneHighClause info.region info.recession_index
            info.conflict_correlation ∈
            (zoneStage (calculate_climate_risk ds.zones e)
              (migrationStage (is_farmer_herder_conflict e)
                ((stratOf ds e).map (·.migration_pressure)) acc5)).1.reasons := by
          rw [hinfo]
          exact zoneStage_fired_high _ _ hhigh
        have hfin : zoneHighClause info.region info.recession_index
            info.conflict_correlation ∈ mid.acc.reasons := by
          rw [hmidacc]; exact h7
        apply hcontainPre _ _ hfin
        unfold zoneHighClause
        apply isPrefix_append
        apply isPrefix_append
        apply isPrefix_append
        apply isPrefix_append
        apply isPrefix_append
        decide
      · have h7 : zoneMedClause info.region info.impact_zone
            info.conflict_correlation ∈
            (zoneStage (calculate_climate_risk ds.zones e)
              (migrationStage (is_farmer_herder_conflict e)
                ((stratOf ds e).map (·.migration_pressure)) acc5)).1.reasons := by
          rw [hinfo]
          exact zoneStage_fired_med _ _ hhigh hmed
        have hfin : zoneMedClause info.region info.impact_zone
            info.conflict_correlation ∈ mid.acc.reasons := by
          rw [hmidacc]; exact h7
        apply hcontainPre _ _ hfin
        unfold zoneMedClause
        apply isPrefix_append
        apply isPrefix_append
        apply isPrefix_append
        apply isPrefix_append
        apply isPrefix_append
        decide

set_option maxRecDepth 8000 in
/-- C5 witness: the Sokoto border run instantiates
`C5_trigger_reason_clauses`: the fired Lakurawa branch's clause occurs in
the trigger reason. -/
theorem C5_witness :
    ∃ sig m2, calculate_risk_score fixDist dsC6 evC6 econC6 [] = (some sig, m2) ∧
      strContains sig.trigger_reason "Lakurawa Presence Detected" := by
  have hsome : (calculate_risk_score fixDist dsC6 evC6 econC6 []).1.isSome = true := by
    simp +decide [calculate_risk_score, find_economic_data, pyLower, pyStrip,
      riskCore, baseStages, inflStage, fuelStage, bumpStage, eventTypeScore,
      severityModifier, Config.BASE_RISK_SCORE, Config.INFLATION_THRESHOLD,
      Config.FUEL_PRICE_THRESHOLD, get_strategic_indicators, find_climate_data,
      floodStage, stressStage, find_nearest_mining_site, nearestMiningAux,
      miningStage, densityStage, find_border_data, borderStage,
      is_farmer_herder_conflict, migrationStage, calculate_climate_risk,
      scanClimateZones, point_in_polygon, pipStep, mkClimateRiskInfo, zoneStage,
      clampScore, detect_surge, mapSet, riskLevelOf, round1, pyRoundHE,
      mkRiskSignal, validSignal, optBound, optLower, truthyQ, signalRecord,
      evC6, econC6, dsC6, bW6, fixZoneLow, fixDist, List.find?, List.lookup,
      farmerHerderKeywords, strContains, List.foldl, List.range]
    norm_num [Int.fract]
  obtain ⟨sig, hsig⟩ := Option.isSome_iff_exists.mp hsome
  have hrun : calculate_risk_score fixDist dsC6 evC6 econC6 [] =
      (some sig, (calculate_risk_score fixDist dsC6 evC6 econC6 []).2) :=
    Prod.ext hsig rfl
  have hecon : find_economic_data econC6 evC6 = some ⟨"Sokoto", "Illela", 600, 10⟩ := by
    simp +decide [find_economic_data, pyLower, pyStrip, econC6, evC6, List.find?]
  have hbd : find_border_data dsC6.border (evState evC6) (evLga evC6) = some bW6 := by
    simp +decide [find_border_data, pyLower, pyStrip, dsC6, bW6, evC6, List.find?]
  have h := C5_trigger_reason_clauses fixDist dsC6 evC6 econC6 [] sig _
    ⟨"Sokoto", "Illela", 600, 10⟩ hecon hrun
  exact ⟨sig, _, hrun,
    h.2.2.2.2.2.2.2.1 bW6 hbd rfl (by decide)⟩

def evC5 : Event :=
  { event_type := some "clash", state := some "Lagos", lga := some "Ikeja"
    severity := some "low", source_title := some "Test Article"
    source_url := some "https://test.com/article"
    latitude := some 5, longitude := some 5 }

def econC5 : List EconRow := [⟨"Lagos", "Ikeja", 600, 21⟩]

set_option maxRecDepth 8000 in
/-- C5 counterexample: for a clash with inflation 21 the economic stages
reach 77 and the bump raises the score to 81 — a score-changing branch —
yet the reason list of the whole run is exactly the single inflation
clause (appended at line 381 by the inflation branch): the bump at lines
388-390 contributes no clause, so the trigger reason has no clause for
it. -/
theorem C5_counterexample :
    (fuelStage 600 (inflStage 21
      ⟨Config.BASE_RISK_SCORE + eventTypeScore "clash" + severityModifier "low",
        []⟩)).score = 77 ∧
    (baseStages "clash" "low" 21 600).score = 81 ∧
    (baseStages "clash" "low" 21 600).reasons = [inflClause 21] ∧
    ((calculate_risk_score fixDist fixDs evC5 econC5 []).1.map
      (·.trigger_reason) = some ("Critical Risk: " ++ inflClause 21)) ∧
    ((calculate_risk_score fixDist fixDs evC5 econC5 []).1.map
      (·.risk_score) = some 81) := by
  refine ⟨?_, ?_, ?_, ?_, ?_⟩
  · simp +decide [fuelStage, inflStage, eventTypeScore, severityModifier,
      Config.BASE_RISK_SCORE, Config.INFLATION_THRESHOLD,
      Config.FUEL_PRICE_THRESHOLD]
    norm_num
  · simp +decide [baseStages, bumpStage, fuelStage, inflStage, eventTypeScore,
      severityModifier, Config.BASE_RISK_SCORE, Config.INFLATION_THRESHOLD,
      Config.FUEL_PRICE_THRESHOLD]
    try norm_num
  · simp +decide [baseStages, bumpStage, fuelStage, inflStage, eventTypeScore,
      severityModifier, Config.BASE_RISK_SCORE, Config.INFLATION_THRESHOLD,
      Config.FUEL_PRICE_THRESHOLD]
    try norm_num
  · simp +decide [calculate_risk_score, find_economic_data, pyLower, pyStrip,
      riskCore, baseStages, inflStage, fuelStage, bumpStage, eventTypeScore,
      severityModifier, Config.BASE_RISK_SCORE, Config.INFLATION_THRESHOLD,
      Config.FUEL_PRICE_THRESHOLD, get_strategic_indicators, find_climate_data,
      floodStage, stressStage, find_nearest_mining_site, nearestMiningAux,
      miningStage, densityStage, find_border_data, borderStage,
      is_farmer_herder_conflict, migrationStage, calculate_climate_risk,
      scanClimateZones, point_in_polygon, pipStep, mkClimateRiskInfo, zoneStage,
      clampScore, detect_surge, mapSet, riskLevelOf, round1, pyRoundHE,
      mkRiskSignal, validSignal, optBound, optLower, truthyQ, signalRecord,
      triggerOf, pyJoin, evC5, econC5, fixDs, fixZoneLow, fixDist, List.find?,
      List.lookup, farmerHerderKeywords, strContains, List.foldl, List.range]
    try norm_num [Int.fract]
    try decide
  · simp +decide [calculate_risk_score, find_economic_data, pyLower, pyStrip,
      riskCore, baseStages, inflStage, fuelStage, bumpStage, eventTypeScore,
      severityModifier, Config.BASE_RISK_SCORE, Config.INFLATION_THRESHOLD,
      Config.FUEL_PRICE_THRESHOLD, get_strategic_indicators, find_climate_data,
      floodStage, stressStage, find_nearest_mining_site, nearestMiningAux,
      miningStage, densityStage, find_border_data, borderStage,
      is_farmer_herder_conflict, migrationStage, calculate_climate_risk,
      scanClimateZones, point_in_polygon, pipStep, mkClimateRiskInfo, zoneStage,
      clampScore, detect_surge, mapSet, riskLevelOf, round1, pyRoundHE,
      mkRiskSignal, validSignal, optBound, optLower, truthyQ, signalRecord,
      triggerOf, pyJoin, evC5, econC5, fixDs, fixZoneLow, fixDist, List.find?,
      List.lookup, farmerHerderKeywords, strContains, List.foldl, List.range]
    try norm_num [Int.fract]
    try decide

/-- C7 witness: `C7_four_keys_required` instantiated at the four-key
object. -/
theorem C7_witness :
    (validate_llm_fields obj4).isSome = true ↔
      ((jsonGet obj4 "Event_Type").isSome = true ∧
       (jsonGet obj4 "State").isSome = true ∧
       (jsonGet obj4 "LGA").isSome = true ∧
       (jsonGet obj4 "Severity").isSome = true) :=
  C7_four_keys_required obj4

end Nextier
